import Mathlib

/-!
# Verification of the Risk-Backend assessment lifecycle

Shallow embedding of the Niveamanu/Risk-Backend services
(`services/assessment_service.py`, `services/notification_service.py`,
`services/audit_service.py`, `services/assessment_id_service.py`,
`api/v1/endpoints/assessment_router.py`, `database/connection.py`).

The relational store is modelled as a record of row lists (`DB`).
`DatabaseConnection.execute_query` (connection.py lines 85-108) commits
every non-SELECT statement individually as it executes; the multi-step
save protocol is therefore modelled as an explicit list of write
statements (`DB → DB` functions) folded over the state, so that the
committed state after a mid-sequence failure is the fold of the prefix
of statements that ran before the failing one.

Python conventions modelled explicitly:
* SQL `NULL` is `Option.none`; `col = %s` with a NULL parameter or a
  NULL column value never matches (`sqlEqOpt`).
* Python truthiness: `None`, `""` and `0` are falsy (`truthyOptNat`,
  `truthyOptStr`, `truthyOptInt`).
* Python `x or d` on optional strings is `pyOr`.
* `f"... {x}"` renders `None` as `"None"` (`pyStrOpt`).
-/

namespace RiskBackend

/-- Python `str.lower()` (ASCII range, as the data at hand is ASCII),
via a structurally-reducing character map. -/
def pyLower (s : String) : String := ⟨s.data.map Char.toLower⟩

/-- Python `str.upper()` (ASCII range). -/
def pyUpper (s : String) : String := ⟨s.data.map Char.toUpper⟩

/-- Python `str.strip()`: whitespace removed from both ends. -/
def pyStrip (s : String) : String :=
  ⟨((s.data.dropWhile Char.isWhitespace).reverse.dropWhile Char.isWhitespace).reverse⟩

/-- Python slicing `s[:n]` (by code point). -/
def strTake (s : String) (n : Nat) : String := ⟨s.data.take n⟩

/-- Prefix test on strings (used for the SQL LIKE prefix pattern). -/
def strIsPrefixOf (p s : String) : Bool := p.data.isPrefixOf s.data

def wordsAux : List Char → List Char → List (List Char)
  | [], acc => if acc = [] then [] else [acc.reverse]
  | c :: cs, acc =>
    if c.isWhitespace then
      if acc = [] then wordsAux cs [] else acc.reverse :: wordsAux cs []
    else wordsAux cs (c :: acc)

/-- Python `str.split()` with no argument: split on whitespace runs,
dropping empty pieces. -/
def pyWords (s : String) : List String := (wordsAux s.data []).map String.mk

def splitOnDashAux : List Char → List Char → List (List Char)
  | [], acc => [acc.reverse]
  | c :: cs, acc =>
    if c = '-' then acc.reverse :: splitOnDashAux cs []
    else splitOnDashAux cs (c :: acc)

/-- Python `str.split('-')`. -/
def splitOnDash (s : String) : List String := (splitOnDashAux s.data []).map String.mk

/-- Python `int(s)` restricted to the non-negative decimal numerals the
code generator produces (surrounding whitespace stripped; sign,
underscores and non-decimal forms are not modelled). -/
def pyToNat? (s : String) : Option Nat :=
  let t := (pyStrip s).data
  if t ≠ [] ∧ t.all Char.isDigit then
    some (t.foldl (fun n c => n * 10 + (c.toNat - 48)) 0)
  else none

/-- Lexicographic comparison of character lists by code point, the
order `ORDER BY` applies to the ASCII assessment codes. -/
def charListLt : List Char → List Char → Bool
  | [], [] => false
  | [], _ :: _ => true
  | _ :: _, [] => false
  | a :: as, b :: bs =>
    if a.toNat < b.toNat then true
    else if b.toNat < a.toNat then false
    else charListLt as bs

/-- String comparison used to model `ORDER BY assessment_id`. -/
def strLt (a b : String) : Bool := charListLt a.data b.data

/-- The larger of two strings w.r.t. `strLt` (keeping the left one on
ties). -/
def strMax (m c : String) : String := if strLt m c then c else m

/-- Descending insertion w.r.t. `strLt`. -/
def insertDescStr (x : String) : List String → List String
  | [] => [x]
  | y :: ys => if strLt x y then y :: insertDescStr x ys else x :: y :: ys

/-- Descending sort w.r.t. `strLt` (`ORDER BY ... DESC`). -/
def sortDescStr : List String → List String
  | [] => []
  | x :: xs => insertDescStr x (sortDescStr xs)

/-- Python `str(x)` for an optional string, as used inside f-strings:
`None` renders as `"None"`. -/
def pyStrOpt : Option String → String
  | none => "None"
  | some s => s

/-- Python `x or d` for an optional string: `None` and `""` are falsy. -/
def pyOr : Option String → String → String
  | none, d => d
  | some "", d => d
  | some s, _ => s

/-- Python truthiness of an optional integer id (0 and None are falsy). -/
def truthyOptNat : Option Nat → Bool
  | none => false
  | some n => n ≠ 0

/-- Python truthiness of an optional string (None and "" are falsy). -/
def truthyOptStr : Option String → Bool
  | none => false
  | some s => s ≠ ""

/-- Python truthiness of an optional int value (None and 0 are falsy). -/
def truthyOptInt : Option Int → Bool
  | none => false
  | some i => i ≠ 0

/-- SQL equality `col = %s` on nullable values: NULL on either side
never matches. -/
def sqlEqOpt : Option Nat → Option Nat → Bool
  | some x, some y => x == y
  | _, _ => false

/-- Row of `"Risk Assessment".riskassessment_site_study`.
Nullable text columns are `Option String`; `sponsor_code`, `site` and
`protocol` are modelled as `String` with `""` for NULL/empty, which the
code treats identically (Python falsiness). `status` is the study
status checked against `'Inactive'`. -/
structure Study where
  id : Nat
  site : String
  sponsor_code : String
  protocol : String
  principal_investigator : Option String
  principal_investigator_email : Option String
  site_director : Option String
  site_director_email : Option String
  status : String
deriving DecidableEq, Repr

/-- Row of `"Risk Assessment".assessments`.  `assessment_id` is the
generated human-readable code (the column of that name); `id` is the
surrogate primary key. -/
structure Assessment where
  id : Nat
  study_id : Nat
  assessment_id : String
  status : String
  assessment_date : Option String
  next_review_date : Option String
  monitoring_schedule : Option String
  overall_risk_score : Option Int
  overall_risk_level : Option String
  comments : Option String
  conducted_by_name : String
  conducted_by_email : String
  updated_by_name : String
  updated_by_email : String
deriving DecidableEq, Repr

/-- Row of `"Risk Assessment".risk_factors` (the catalog). -/
structure RiskFactorRow where
  id : Nat
  is_active : Bool
deriving DecidableEq, Repr

/-- Row of `"Risk Assessment".assessment_risks`. -/
structure RiskScoreRow where
  assessment_id : Nat
  risk_factor_id : Option Nat
  severity : Option Int
  likelihood : Option Int
  risk_score : Option Int
  risk_level : Option String
  mitigation_actions : Option String
  custom_notes : Option String
deriving DecidableEq, Repr

/-- Row of `"Risk Assessment".assessment_risk_mitigation_plans`. -/
structure MitigationPlanRow where
  assessment_id : Nat
  risk_item : Option String
  responsible_person : Option String
  mitigation_strategy : Option String
  target_date : Option String
  status : String
  priority_level : String
deriving DecidableEq, Repr

/-- Row of `"Risk Assessment".assessment_risk_dashboard`. -/
structure DashboardRow where
  assessment_id : Nat
  total_risks : Int
  high_risk_count : Int
  medium_risk_count : Int
  low_risk_count : Int
  total_score : Int
  overall_risk_level : Option String
  risk_level_criteria : Option String
deriving DecidableEq, Repr

/-- Row of `"Risk Assessment".assessment_summary_comments`.
`created_at` is a logical timestamp (CURRENT_TIMESTAMP). -/
structure SummaryCommentRow where
  assessment_id : Nat
  comment_type : Option String
  comment_text : Option String
  created_by_name : String
  created_by_email : String
  created_at : Nat
deriving DecidableEq, Repr

/-- Row of `"Risk Assessment".section_comments`. -/
structure SectionCommentRow where
  assessment_id : Nat
  section_key : Option String
  section_title : Option String
  comment_text : Option String
deriving DecidableEq, Repr

/-- Row of `"Risk Assessment".assessment_approvals`. -/
structure ApprovalRow where
  id : Nat
  assessment_id : Nat
  action : String
  action_by_name : String
  action_by_email : String
  reason : Option String
  comments : Option String
  action_date : Nat
deriving DecidableEq, Repr

/-- Row of `"Risk Assessment".assessment_timeline`. -/
structure TimelineRow where
  study_id : Nat
  assessment_id : Nat
  schedule_type : String
  assessed_date : Option String
  assessed_by_name : String
  assessed_by_email : String
  risk_score : Option Int
  risk_level : Option String
  notes : String
  created_at : Nat
deriving DecidableEq, Repr

/-- Row of `"Risk Assessment".assessment_notifications`. -/
structure NotificationRow where
  id : Nat
  assessment_id : Nat
  action : String
  action_by_name : String
  action_by_email : String
  reason : String
  comments : Option String
  target_user_type : String
  study_id : Nat
  action_date : Nat
  read_status : Bool
  updated_at : Nat
deriving DecidableEq, Repr

/-- Row of `"Risk Assessment".assessment_audit_trail`. -/
structure AuditRow where
  id : Nat
  assessment_id : Nat
  risk_factor_id : Option Nat
  field_name : String
  old_value : Option String
  new_value : Option String
  changed_by_name : String
  changed_by_email : String
  change_reason : Option String
  changed_at : Nat
deriving DecidableEq, Repr

/-- The relational store.  `next_id` models the serial id sequence,
`now` a logical CURRENT_TIMESTAMP clock (bumped on timestamped
inserts), `today` the value of `datetime.now().date()` as a string. -/
structure DB where
  studies : List Study
  assessments : List Assessment
  risk_factors : List RiskFactorRow
  risk_scores : List RiskScoreRow
  mitigation_plans : List MitigationPlanRow
  dashboards : List DashboardRow
  summary_comments : List SummaryCommentRow
  section_comments : List SectionCommentRow
  approvals : List ApprovalRow
  timeline : List TimelineRow
  notifications : List NotificationRow
  audit_trail : List AuditRow
  next_id : Nat
  now : Nat
  today : String
deriving DecidableEq, Repr

/-- An HTTPException: status code and detail message. -/
structure Err where
  status : Nat
  detail : String
deriving DecidableEq, Repr

/-! ## NotificationService (`services/notification_service.py`) -/

/-- Input dict of `NotificationService.create_notification`. -/
structure NotificationInput where
  assessment_id : Nat
  action : String
  action_by_name : String
  action_by_email : String
  reason : String
  comments : Option String
  target_user_type : String
  study_id : Nat
deriving DecidableEq, Repr

/-- `NotificationService.create_notification` (lines 17-75).  The
required-field check is Python `all([...])` (truthiness); `comments` is
not in the required list.  On success exactly one row is inserted with
`read_status = False`, and the new id is returned.  Note the service's
generic `except Exception` handler re-wraps the inner 400
`HTTPException` into a 500 whose detail embeds the original message. -/
def create_notification (db : DB) (inp : NotificationInput) : Except Err (DB × Nat) :=
  if inp.assessment_id = 0 ∨ inp.action = "" ∨ inp.action_by_name = "" ∨
     inp.action_by_email = "" ∨ inp.reason = "" ∨ inp.target_user_type = "" ∨
     inp.study_id = 0 then
    .error ⟨500, "Failed to create notification: 400: Missing required notification fields"⟩
  else
    let row : NotificationRow :=
      { id := db.next_id
        assessment_id := inp.assessment_id
        action := inp.action
        action_by_name := inp.action_by_name
        action_by_email := inp.action_by_email
        reason := inp.reason
        comments := inp.comments
        target_user_type := inp.target_user_type
        study_id := inp.study_id
        action_date := db.now
        read_status := false
        updated_at := db.now }
    .ok ({ db with notifications := db.notifications ++ [row]
                   next_id := db.next_id + 1
                   now := db.now + 1 }, db.next_id)

/-- `NotificationService.create_assessment_submission_notification`
(lines 362-402): routing of the submission notification by the
submitter's role. -/
def create_assessment_submission_notification (db : DB) (assessment_id study_id : Nat)
    (submitter_name submitter_email submitter_type : String) : Except Err (DB × Nat) :=
  let route : String × String × String × String :=
    if pyUpper submitter_type = "PI" then
      ("SD", "Initial Save", "Assessment saved by Principal Investigator",
       "Assessment data saved successfully by PI")
    else if pyUpper submitter_type = "SD" then
      ("PI", "SD Created", "Assessment created by Study Director",
       "Study Director has created an assessment that requires your review")
    else
      ("SD", "Initial Save", "Assessment saved", "Assessment data saved successfully")
  create_notification db
    { assessment_id := assessment_id
      action := route.2.1
      action_by_name := submitter_name
      action_by_email := submitter_email
      reason := route.2.2.1
      comments := some route.2.2.2
      target_user_type := route.1
      study_id := study_id }

/-- `NotificationService.create_assessment_approval_notification`
(lines 404-422): decision notifications always target the PI. -/
def create_assessment_approval_notification (db : DB) (assessment_id study_id : Nat)
    (sd_name sd_email : String) (action reason comments : String) : Except Err (DB × Nat) :=
  create_notification db
    { assessment_id := assessment_id
      action := action
      action_by_name := sd_name
      action_by_email := sd_email
      reason := reason
      comments := some comments
      target_user_type := "PI"
      study_id := study_id }

/-- `NotificationService.mark_as_read` (lines 270-296).  The UPDATE
sets `read_status` for all rows with the given id; `rowcount = 0`
raises a 404 inside the `try`, which the method's own
`except Exception` clause catches and re-raises as a 500 wrapping the
original message (there is no `except HTTPException: raise`
passthrough in this service).  Returns the resulting store alongside
the outcome so that the absence of mutation is expressible.
`markStep` is the row transformation of a single UPDATE. -/
def markStep (now nid : Nat) (n : NotificationRow) : NotificationRow :=
  if n.id = nid then { n with read_status := true, updated_at := now } else n

def mark_as_read (db : DB) (notification_id : Nat) : DB × Except Err Unit :=
  let db' := { db with notifications := db.notifications.map (markStep db.now notification_id) }
  let rowcount := (db.notifications.filter (fun n => n.id = notification_id)).length
  if rowcount = 0 then
    (db', .error ⟨500, "Failed to mark notification as read: 404: Notification not found"⟩)
  else
    (db', .ok ())

/-! ## AuditService (`services/audit_service.py`) -/

/-- Insertion into a list kept sorted by `changed_at` descending
(stable: an incoming row goes after existing rows with the same or a
larger timestamp). -/
def insertByChangedAtDesc (e : AuditRow) : List AuditRow → List AuditRow
  | [] => [e]
  | x :: xs => if e.changed_at ≤ x.changed_at then x :: insertByChangedAtDesc e xs
               else e :: x :: xs

/-- `ORDER BY changed_at DESC` over audit rows. -/
def sortByChangedAtDesc : List AuditRow → List AuditRow
  | [] => []
  | x :: xs => insertByChangedAtDesc x (sortByChangedAtDesc xs)

/-- `AuditService.get_audit_trail_for_assessment` (lines 18-84).  The
base WHERE clause hard-codes
`aat.field_name in ('Severity', 'Likelihood')`; the optional
`field_name` / `risk_factor_id` filters are appended with `AND` only
when truthy (`if field_name:` / `if risk_factor_id:`), then
`ORDER BY changed_at DESC LIMIT limit`. -/
def get_audit_trail_for_assessment (db : DB) (assessment_id : Nat)
    (field_name : Option String) (risk_factor_id : Option Nat) (limit : Nat) :
    List AuditRow :=
  let rows := db.audit_trail.filter (fun e =>
    e.assessment_id == assessment_id &&
    (e.field_name == "Severity" || e.field_name == "Likelihood") &&
    (match field_name with
     | none => true
     | some f => if f = "" then true else e.field_name == f) &&
    (match risk_factor_id with
     | none => true
     | some r => if r = 0 then true else e.risk_factor_id == some r))
  (sortByChangedAtDesc rows).take limit

/-- `AuditService.get_risk_score_changes` (lines 92-96). -/
def get_risk_score_changes (db : DB) (assessment_id : Nat) (limit : Nat) : List AuditRow :=
  get_audit_trail_for_assessment db assessment_id (some "Risk Score") none limit

/-- `AuditService.get_risk_level_changes` (lines 98-102). -/
def get_risk_level_changes (db : DB) (assessment_id : Nat) (limit : Nat) : List AuditRow :=
  get_audit_trail_for_assessment db assessment_id (some "Risk Level") none limit

/-! ## AssessmentIDService (`services/assessment_id_service.py`) -/

/-- Substring test, Python `sub in s`: `sub` occurs contiguously in
`s` (checked at every start offset). -/
def strContains (s sub : String) : Bool :=
  (List.range (s.data.length + 1)).any (fun i => sub.data.isPrefixOf (s.data.drop i))

/-- `AssessmentIDService._create_site_code` (lines 67-102).  Python
`site_name.split()` splits on whitespace runs dropping empties.  An
empty word list would raise IndexError in Python; modelled as `""`
(unreachable for the non-empty, non-special names the checks leave). -/
def create_site_code (site_name : String) : String :=
  if site_name = "" ∨ site_name = "UNK" then "UNK"
  else
    let lower := pyStrip (pyLower site_name)
    if strContains lower "flourish" then
      if strContains lower "san antonio" then "FSA"
      else if strContains lower "san diego" then "FSD"
      else if strContains lower "new york" then "FNY"
      else if strContains lower "los angeles" then "FLA"
      else if strContains lower "texas" then "FTX"
      else if strContains lower "california" then "FCA"
      else "FLR"
    else
      match pyWords site_name with
      | [w] => pyUpper (strTake w 3)
      | [w1, w2] => pyUpper (strTake w1 1 ++ strTake w2 2)
      | w1 :: w2 :: w3 :: _ => pyUpper (strTake w1 1 ++ strTake w2 1 ++ strTake w3 1)
      | [] => ""

/-- The LIKE-prefix match plus `ORDER BY assessment_id DESC LIMIT 1`
of `_get_next_sequence`: the lexicographically greatest existing code
that starts with the pattern prefix (the trailing `%` is the only
wildcard in the generated pattern). -/
def likeTop (codes : List String) (pfx : String) : Option String :=
  (codes.filter (fun c => strIsPrefixOf pfx c)).foldl
    (fun acc c =>
      match acc with
      | none => some c
      | some m => if strLt m c then some c else some m)
    none

/-- `AssessmentIDService._get_next_sequence` (lines 104-139) over the
existing `assessments.assessment_id` codes.  The numeric suffix is
`last.split('-')[-1]` parsed by `int(...)` (modelled digits-only via
`String.toNat?`, which agrees with Python on the non-negative
zero-padded suffixes the generator produces). -/
def get_next_sequence (codes : List String)
    (site_code sponsor_code protocol_code date_formatted : String) : Nat :=
  let pattern :=
    if sponsor_code ≠ "" then
      site_code ++ "-" ++ sponsor_code ++ "-" ++ protocol_code ++ "-" ++ date_formatted ++ "-"
    else
      site_code ++ "-" ++ protocol_code ++ "-" ++ date_formatted ++ "-"
  match likeTop codes pattern with
  | none => 1
  | some last =>
    match pyToNat? ((splitOnDash last).getLastD "") with
    | some n => n + 1
    | none => 1

/-- `%03d` formatting of the sequence number. -/
def pad3 (n : Nat) : String :=
  let s := toString n
  if s.length ≥ 3 then s else String.mk (List.replicate (3 - s.length) '0') ++ s

/-- `AssessmentIDService.generate_assessment_id` (lines 13-65), taking
the assessment date already in `YYYYMMDD` form (the `strptime`
conversion of a dashed date to `date_formatted` is not modelled; an
8-digit input passes through the code's `isdigit` branch unchanged).
`codes` is the list of existing `assessments.assessment_id` values the
sequence query ranges over. -/
def generate_assessment_id (codes : List String) (study : Study)
    (date_formatted : String) : String :=
  let site_name := if study.site = "" then "UNK" else study.site
  let sponsor_code := study.sponsor_code
  let protocol_code := if study.protocol ≠ "" then strTake study.protocol 3 else "UNK"
  let site_code := create_site_code site_name
  let sequence := get_next_sequence codes site_code sponsor_code protocol_code date_formatted
  if sponsor_code ≠ "" then
    site_code ++ "-" ++ sponsor_code ++ "-" ++ protocol_code ++ "-" ++ date_formatted ++ "-" ++
      pad3 sequence
  else
    site_code ++ "-" ++ protocol_code ++ "-" ++ date_formatted ++ "-" ++ pad3 sequence

/-- The claim's description of the sequence's source, stated with the
claim's words for comparison with `get_next_sequence`: the existing
codes sharing the prefix, ordered descending, and the top one taken. -/
def claimTopCode (codes : List String) (pfx : String) : Option String :=
  (sortDescStr (codes.filter (fun c => strIsPrefixOf pfx c))).head?

/-- The claim's sequence rule: 1 plus the numeric suffix of the
descending-ordered top existing code sharing the prefix, defaulting to
1 when no such code exists or its suffix is unparsable. -/
def claimSequence (codes : List String) (pfx : String) : Nat :=
  match claimTopCode codes pfx with
  | none => 1
  | some c =>
    match pyToNat? ((splitOnDash c).getLastD "") with
    | some n => n + 1
    | none => 1

/-- The claim's code format: the dash-joined prefix
`{siteCode}-{sponsorCode}-{protocolCode}-{YYYYMMDD}-` with the sponsor
segment omitted entirely when the study's `sponsor_code` is empty and
the protocol code the first 3 characters of the protocol. -/
def claimPrefix (study : Study) (date_formatted : String) : String :=
  let site := create_site_code (if study.site = "" then "UNK" else study.site)
  if study.sponsor_code = "" then
    site ++ "-" ++ strTake study.protocol 3 ++ "-" ++ date_formatted ++ "-"
  else
    site ++ "-" ++ study.sponsor_code ++ "-" ++ strTake study.protocol 3 ++ "-" ++
      date_formatted ++ "-"

/-! ## Approve / reject endpoints (`api/v1/endpoints/assessment_router.py`) -/

/-- Body of `AssessmentApprovalRequest`. -/
structure ApprovalRequest where
  study_id : Nat
  assessment_id : Nat
  action : String
  reason : String
  comments : Option String
  action_by_name : String
  action_by_email : String
deriving DecidableEq, Repr

/-- The side effects shared by `approve_assessment` / `reject_assessment`
after their checks pass (lines 224-264 / 375-415): update the
assessment's status and `updated_by` fields, then insert one approval
record WITHOUT deleting prior records, then attempt the PI-targeted
decision notification (failures caught and swallowed).  `newStatus` is
`'Approved'`/`'Rejected'`; `defaultComment` the per-endpoint fallback
used when `request.comments` is falsy. -/
def decisionEffects (db : DB) (assessment_id : Nat) (req : ApprovalRequest)
    (study_id : Nat) (newStatus action defaultComment : String) : DB :=
  let updAssessment : Assessment → Assessment := fun a =>
    if a.id = assessment_id then
      { a with status := newStatus,
               updated_by_name := req.action_by_name,
               updated_by_email := req.action_by_email }
    else a
  let db1 := { db with assessments := db.assessments.map updAssessment }
  let row : ApprovalRow :=
    { id := db1.next_id
      assessment_id := assessment_id
      action := action
      action_by_name := req.action_by_name
      action_by_email := req.action_by_email
      reason := some req.reason
      comments := req.comments
      action_date := db1.now }
  let db2 := { db1 with approvals := db1.approvals ++ [row],
                        next_id := db1.next_id + 1,
                        now := db1.now + 1 }
  match db2.studies.find? (fun s => s.id == study_id && s.status != "Inactive") with
  | none => db2
  | some st =>
    let _pi_name := pyOr st.principal_investigator "Unknown PI"
    let _pi_email := pyOr st.principal_investigator_email "unknown@email.com"
    match create_assessment_approval_notification db2 assessment_id study_id
        req.action_by_name req.action_by_email action req.reason
        (pyOr req.comments defaultComment) with
    | .ok (d, _) => d
    | .error _ => db2

/-- `approve_assessment` (lines 200-342): 404 when the assessment id
is unknown, 400 naming the current status when it is not
`'Pending Review'` or `'In Progress'`, otherwise the decision effects
with status `'Approved'`. -/
def approve_assessment (db : DB) (assessment_id : Nat) (req : ApprovalRequest) :
    Except Err DB :=
  match db.assessments.find? (fun a => a.id = assessment_id) with
  | none => .error ⟨404, "Assessment not found"⟩
  | some a =>
    if a.status ≠ "Pending Review" ∧ a.status ≠ "In Progress" then
      .error ⟨400, "Assessment cannot be approved. Current status: " ++ a.status⟩
    else
      .ok (decisionEffects db assessment_id req a.study_id "Approved" "Approved"
        "Assessment has been reviewed and approved by Study Director")

/-- `reject_assessment` (lines 344-493): as `approve_assessment` but
with status `'Rejected'`, and an additional 400 when
`request.reason` is empty or whitespace-only — checked AFTER the
status check. -/
def reject_assessment (db : DB) (assessment_id : Nat) (req : ApprovalRequest) :
    Except Err DB :=
  match db.assessments.find? (fun a => a.id = assessment_id) with
  | none => .error ⟨404, "Assessment not found"⟩
  | some a =>
    if a.status ≠ "Pending Review" ∧ a.status ≠ "In Progress" then
      .error ⟨400, "Assessment cannot be rejected. Current status: " ++ a.status⟩
    else if pyStrip req.reason = "" then
      .error ⟨400, "Reason is required for rejection"⟩
    else
      .ok (decisionEffects db assessment_id req a.study_id "Rejected" "Rejected"
        "Assessment has been reviewed and rejected by Study Director")

/-! ## AssessmentService.save_assessment (`services/assessment_service.py`)

`DatabaseConnection.execute_query` commits every non-SELECT statement
as soon as it executes (connection.py lines 96-100), so the save's
write protocol is modelled as an explicit list of write statements
(`DB → DB`); the state after running the whole list is the outcome of
a successful save, and the fold of a prefix is the committed state
when the next statement fails (its own rollback undoes nothing already
committed). -/

/-- The payload dict of `save_assessment` / `save_assessment_draft`
(fields of `AssessmentCreate`, all keys present after `.dict()`). -/
structure RiskScoreEntry where
  risk_factor_id : Option Nat
  severity : Option Int
  likelihood : Option Int
  risk_score : Option Int
  risk_level : Option String
  mitigation_actions : Option String
  custom_notes : Option String
deriving DecidableEq, Repr

structure PlanEntry where
  risk_item : Option String
  responsible_person : Option String
  mitigation_strategy : Option String
  target_date : Option String
  status : Option String
  priority_level : Option String
deriving DecidableEq, Repr

structure DashboardEntry where
  total_risks : Option Int
  high_risk_count : Option Int
  medium_risk_count : Option Int
  low_risk_count : Option Int
  total_score : Option Int
  overall_risk_level : Option String
  risk_level_criteria : Option String
deriving DecidableEq, Repr

structure SummaryCommentEntry where
  comment_type : Option String
  comment_text : Option String
deriving DecidableEq, Repr

structure SectionCommentEntry where
  section_key : Option String
  section_title : Option String
  comment_text : Option String
deriving DecidableEq, Repr

structure Payload where
  study_id : Option Nat
  assessment_date : Option String
  next_review_date : Option String
  monitoring_schedule : Option String
  overall_risk_score : Option Int
  overall_risk_level : Option String
  comments : Option String
  risk_scores : List RiskScoreEntry
  risk_mitigation_plans : List PlanEntry
  risk_dashboard : Option DashboardEntry
  summary_comments : List SummaryCommentEntry
  section_comments : List SectionCommentEntry
deriving DecidableEq, Repr

/-- The authenticated user dict; `none` models an absent key. -/
structure User where
  name : Option String
  email : Option String
deriving DecidableEq, Repr

/-- `current_user.get("name", "Unknown User")`. -/
def userName (u : User) : String := u.name.getD "Unknown User"

/-- `current_user.get("email", ...).lower() if current_user.get("email")
else "unknown@email.com"`. -/
def userEmail (u : User) : String :=
  match u.email with
  | some e => if e = "" then "unknown@email.com" else pyLower e
  | none => "unknown@email.com"

/-- Ids the payload's truthy `risk_factor_id` values, as collected for
validation (`[s.get("risk_factor_id") for s in risk_scores if s.get("risk_factor_id")]`). -/
def payloadFactorIds (p : Payload) : List Nat :=
  p.risk_scores.filterMap (fun e =>
    match e.risk_factor_id with
    | some n => if n ≠ 0 then some n else none
    | none => none)

/-- Ids of the active catalog rows. -/
def activeFactorIds (db : DB) : List Nat :=
  (db.risk_factors.filter (fun f => f.is_active)).map (fun f => f.id)

/-- The pre-write validations of `save_assessment` (lines 85-124):
required study id/date, study existence, and active-catalog membership
of every truthy `risk_factor_id`.  The real detail strings interpolate
the offending ids / study id; only the stable prefix is modelled. -/
def saveValidationError (p : Payload) (db : DB) : Option Err :=
  if ¬ (truthyOptNat p.study_id ∧ truthyOptStr p.assessment_date) then
    some ⟨400, "Study ID and assessment date are required"⟩
  else if (db.studies.find? (fun s => s.id = p.study_id.getD 0)).isNone then
    some ⟨400, "Study ID does not exist in riskassessment_site_study table"⟩
  else if (payloadFactorIds p).any (fun i => ¬ (activeFactorIds db).contains i) then
    some ⟨400, "Invalid risk factor IDs"⟩
  else
    none

/-- Step 1, update path: the header UPDATE (lines 150-176), forcing
status to `'Pending Review'`. -/
def headerUpdate (p : Payload) (uname uemail : String) (aid : Nat) (a : Assessment) :
    Assessment :=
  if a.id = aid then
    { a with assessment_date := p.assessment_date,
             next_review_date := p.next_review_date,
             monitoring_schedule := p.monitoring_schedule,
             overall_risk_score := p.overall_risk_score,
             overall_risk_level := p.overall_risk_level,
             comments := p.comments,
             status := "Pending Review",
             updated_by_name := uname,
             updated_by_email := uemail }
  else a

def headerUpdateStep (p : Payload) (uname uemail : String) (aid : Nat) : DB → DB :=
  fun db => { db with assessments := db.assessments.map (headerUpdate p uname uemail aid) }

/-- Step 1, insert path: the INSERT of a new assessment with status
`'In Progress'` (lines 234-257); the id subsequently read back is the
freshly assigned serial. -/
def newAssessmentRow (p : Payload) (uname uemail code : String) (sid newId : Nat) :
    Assessment :=
  { id := newId
    study_id := sid
    assessment_id := code
    status := "In Progress"
    assessment_date := p.assessment_date
    next_review_date := p.next_review_date
    monitoring_schedule := p.monitoring_schedule
    overall_risk_score := p.overall_risk_score
    overall_risk_level := p.overall_risk_level
    comments := p.comments
    conducted_by_name := uname
    conducted_by_email := uemail
    updated_by_name := uname
    updated_by_email := uemail }

def insertAssessmentStep (p : Payload) (uname uemail code : String) (sid : Nat) :
    DB → DB :=
  fun db =>
    { db with assessments := db.assessments ++ [newAssessmentRow p uname uemail code sid db.next_id],
              next_id := db.next_id + 1 }

/-- DELETE of existing mitigation plans (lines 188-192). -/
def deletePlansStep (aid : Nat) : DB → DB :=
  fun db => { db with mitigation_plans := db.mitigation_plans.filter (fun r => r.assessment_id ≠ aid) }

/-- DELETE of the existing dashboard row (lines 196-200). -/
def deleteDashboardStep (aid : Nat) : DB → DB :=
  fun db => { db with dashboards := db.dashboards.filter (fun r => r.assessment_id ≠ aid) }

/-- DELETE of existing summary comments (lines 204-208). -/
def deleteSummaryStep (aid : Nat) : DB → DB :=
  fun db => { db with summary_comments := db.summary_comments.filter (fun r => r.assessment_id ≠ aid) }

/-- DELETE of existing section comments (lines 212-216). -/
def deleteSectionStep (aid : Nat) : DB → DB :=
  fun db => { db with section_comments := db.section_comments.filter (fun r => r.assessment_id ≠ aid) }

/-- DELETE of existing approval records (lines 220-224 on the update
path; also the conditional delete before the re-insert, lines
453-467, whose existence check makes it equivalent to a plain
filter). -/
def deleteApprovalsStep (aid : Nat) : DB → DB :=
  fun db => { db with approvals := db.approvals.filter (fun r => r.assessment_id ≠ aid) }

/-- The per-entry risk-score upsert (lines 280-334): SQL equality on
the nullable `risk_factor_id` never matches a NULL on either side, so
an entry with no factor id always inserts. -/
def riskRowUpdate (e : RiskScoreEntry) (r : RiskScoreRow) : RiskScoreRow :=
  { r with severity := e.severity,
           likelihood := e.likelihood,
           risk_score := e.risk_score,
           risk_level := e.risk_level,
           mitigation_actions := e.mitigation_actions,
           custom_notes := e.custom_notes }

def riskRowNew (aid : Nat) (e : RiskScoreEntry) : RiskScoreRow :=
  { assessment_id := aid
    risk_factor_id := e.risk_factor_id
    severity := e.severity
    likelihood := e.likelihood
    risk_score := e.risk_score
    risk_level := e.risk_level
    mitigation_actions := e.mitigation_actions
    custom_notes := e.custom_notes }

def upsertRisk (aid : Nat) (e : RiskScoreEntry) (rows : List RiskScoreRow) :
    List RiskScoreRow :=
  if rows.any (fun r => r.assessment_id == aid && sqlEqOpt r.risk_factor_id e.risk_factor_id) then
    rows.map (fun r =>
      if r.assessment_id == aid && sqlEqOpt r.risk_factor_id e.risk_factor_id then
        riskRowUpdate e r
      else r)
  else
    rows ++ [riskRowNew aid e]

def riskUpsertStep (aid : Nat) (e : RiskScoreEntry) : DB → DB :=
  fun db => { db with risk_scores := upsertRisk aid e db.risk_scores }

/-- Row built from a payload mitigation plan
(`plan.get("status", "Pending")` / `plan.get("priority_level", "High")`). -/
def planRowOf (aid : Nat) (pl : PlanEntry) : MitigationPlanRow :=
  { assessment_id := aid
    risk_item := pl.risk_item
    responsible_person := pl.responsible_person
    mitigation_strategy := pl.mitigation_strategy
    target_date := pl.target_date
    status := pl.status.getD "Pending"
    priority_level := pl.priority_level.getD "High" }

def planInsertStep (aid : Nat) (pl : PlanEntry) : DB → DB :=
  fun db => { db with mitigation_plans := db.mitigation_plans ++ [planRowOf aid pl] }

/-- Dashboard row from the payload (`.get(..., 0)` numeric defaults). -/
def dashboardRowOf (aid : Nat) (d : DashboardEntry) : DashboardRow :=
  { assessment_id := aid
    total_risks := d.total_risks.getD 0
    high_risk_count := d.high_risk_count.getD 0
    medium_risk_count := d.medium_risk_count.getD 0
    low_risk_count := d.low_risk_count.getD 0
    total_score := d.total_score.getD 0
    overall_risk_level := d.overall_risk_level
    risk_level_criteria := d.risk_level_criteria }

def dashboardInsertStep (aid : Nat) (d : DashboardEntry) : DB → DB :=
  fun db => { db with dashboards := db.dashboards ++ [dashboardRowOf aid d] }

def summaryRowOf (aid : Nat) (uname uemail : String) (c : SummaryCommentEntry)
    (t : Nat) : SummaryCommentRow :=
  { assessment_id := aid
    comment_type := c.comment_type
    comment_text := c.comment_text
    created_by_name := uname
    created_by_email := uemail
    created_at := t }

def summaryInsertStep (aid : Nat) (uname uemail : String) (c : SummaryCommentEntry) :
    DB → DB :=
  fun db =>
    { db with summary_comments := db.summary_comments ++ [summaryRowOf aid uname uemail c db.now],
              now := db.now + 1 }

def sectionRowOf (aid : Nat) (c : SectionCommentEntry) : SectionCommentRow :=
  { assessment_id := aid
    section_key := c.section_key
    section_title := c.section_title
    comment_text := c.comment_text }

def sectionInsertStep (aid : Nat) (c : SectionCommentEntry) : DB → DB :=
  fun db => { db with section_comments := db.section_comments ++ [sectionRowOf aid c] }

/-- `SELECT comment_text ... ORDER BY created_at DESC LIMIT 1`: the
summary comment of the assessment with the greatest timestamp (later
insert wins ties; within one save timestamps are distinct). -/
def latestSummaryComment (db : DB) (aid : Nat) : Option SummaryCommentRow :=
  (db.summary_comments.filter (fun c => c.assessment_id = aid)).foldl
    (fun acc c =>
      match acc with
      | none => some c
      | some m => if m.created_at ≤ c.created_at then some c else some m)
    none

/-- `AssessmentService._handle_assessment_timeline` (lines 1387-1484).
On the new-assessment path one `'Initial Assessment'` entry is always
inserted.  On the update path an entry labelled
`"Schedule Update: {new}"` is inserted only when the previously stored
schedule is NOT NULL and differs from the payload's; a NULL previous
schedule inserts nothing (the `is not None` guard). -/
def timelineRowOf (sid aid : Nat) (p : Payload) (uname uemail : String)
    (scheduleType notes : String) (t : Nat) : TimelineRow :=
  { study_id := sid
    assessment_id := aid
    schedule_type := scheduleType
    assessed_date := p.assessment_date
    assessed_by_name := uname
    assessed_by_email := uemail
    risk_score := p.overall_risk_score
    risk_level := p.overall_risk_level
    notes := notes
    created_at := t }

def handleTimelineStep (sid aid : Nat) (p : Payload) (uname uemail : String)
    (isNew : Bool) (prev : Option String) : DB → DB :=
  fun db =>
    let finalComment : Option String :=
      match latestSummaryComment db aid with
      | some c => c.comment_text
      | none => p.comments
    if isNew then
      let row := timelineRowOf sid aid p uname uemail "Initial Assessment"
        (pyOr finalComment ("Initial assessment created by " ++ uname)) db.now
      { db with timeline := db.timeline ++ [row], now := db.now + 1 }
    else
      match prev with
      | none => db
      | some prevS =>
        if p.monitoring_schedule = some prevS then db
        else
          let row := timelineRowOf sid aid p uname uemail
            ("Schedule Update: " ++ pyStrOpt p.monitoring_schedule)
            (pyOr finalComment
              ("Monitoring schedule updated from '" ++ prevS ++ "' to '" ++
               pyStrOpt p.monitoring_schedule ++ "' by " ++ uname)) db.now
          { db with timeline := db.timeline ++ [row], now := db.now + 1 }

/-- Insert of the save-path approval record (lines 470-485),
attributed to the study's recorded Site Director. -/
def initialSaveApprovalRow (aid : Nat) (sdName sdEmail : String) (newId t : Nat) :
    ApprovalRow :=
  { id := newId
    assessment_id := aid
    action := "Initial Save"
    action_by_name := sdName
    action_by_email := sdEmail
    reason := some "Assessment saved"
    comments := some "Assessment data saved successfully"
    action_date := t }

def approvalInsertStep (aid : Nat) (sdName sdEmail : String) : DB → DB :=
  fun db =>
    { db with approvals := db.approvals ++ [initialSaveApprovalRow aid sdName sdEmail db.next_id db.now],
              next_id := db.next_id + 1,
              now := db.now + 1 }

/-- Site-director lookup of lines 436-451 (missing row or NULL fields
fall back to `"Unknown"` / `"unknown@email.com"`). -/
def siteDirectorOf (db : DB) (sid : Nat) : String × String :=
  match db.studies.find? (fun s => s.id = sid) with
  | none => ("Unknown", "unknown@email.com")
  | some s => (pyOr s.site_director "Unknown", pyOr s.site_director_email "unknown@email.com")

/-- Role determination of lines 492-511: PI when the user's email
matches the study's PI email, SD when it matches the site director's,
PI otherwise (including unknown study or NULL emails). -/
def determineUserType (db : DB) (sid : Nat) (uemail : String) : String :=
  match db.studies.find? (fun s => s.id = sid) with
  | none => "PI"
  | some s =>
    if s.principal_investigator_email.map pyLower = some (pyLower uemail) then "PI"
    else if s.site_director_email.map pyLower = some (pyLower uemail) then "SD"
    else "PI"

/-- The write statements between step 1 (and the replace-deletes) and
the timeline handler, in source order (lines 278-400): risk-score
upserts, mitigation-plan inserts, the dashboard insert, and
summary-comment inserts. -/
def preTimelineSteps (p : Payload) (uname uemail : String) (aid : Nat) :
    List (DB → DB) :=
  p.risk_scores.map (fun e => riskUpsertStep aid e) ++
  p.risk_mitigation_plans.map (fun pl => planInsertStep aid pl) ++
  (match p.risk_dashboard with
   | some d => [dashboardInsertStep aid d]
   | none => []) ++
  p.summary_comments.map (fun c => summaryInsertStep aid uname uemail c)

/-- The write statements after the timeline handler, in source order
(lines 416-485): section-comment inserts and the approval-record
replacement (conditional delete + insert). -/
def postTimelineSteps (p : Payload) (aid : Nat) (sdName sdEmail : String) :
    List (DB → DB) :=
  p.section_comments.map (fun c => sectionInsertStep aid c) ++
  [deleteApprovalsStep aid, approvalInsertStep aid sdName sdEmail]

/-- The write statements executed after step 1 and the replace-deletes
(lines 278-485). -/
def saveTailSteps (p : Payload) (uname uemail : String) (sid aid : Nat)
    (isNew : Bool) (prev : Option String) (sdName sdEmail : String) :
    List (DB → DB) :=
  preTimelineSteps p uname uemail aid ++
  [handleTimelineStep sid aid p uname uemail isNew prev] ++
  postTimelineSteps p aid sdName sdEmail

/-- All write statements of one save, in execution order.  On the
update path: header update, the five replace-deletes, then the tail;
on the insert path: the assessment insert, then the tail. -/
def saveSteps (p : Payload) (uname uemail : String) (sid aid : Nat) (code : String)
    (isNew : Bool) (prev : Option String) (sdName sdEmail : String) :
    List (DB → DB) :=
  (if isNew then
    [insertAssessmentStep p uname uemail code sid]
  else
    [headerUpdateStep p uname uemail aid,
     deletePlansStep aid, deleteDashboardStep aid, deleteSummaryStep aid,
     deleteSectionStep aid, deleteApprovalsStep aid]) ++
  saveTailSteps p uname uemail sid aid isNew prev sdName sdEmail

/-- Sequential execution of write statements, each committed as it
runs (per-statement autocommit of `execute_query`). -/
def applySteps (db : DB) (steps : List (DB → DB)) : DB :=
  steps.foldl (fun d f => f d) db

/-- The study row (validation guarantees existence on the paths that
use it). -/
def getStudy (db : DB) (sid : Nat) : Study :=
  (db.studies.find? (fun s => s.id = sid)).getD
    ⟨sid, "", "", "", none, none, none, none, ""⟩

/-- The plan of one save: its write statements plus the identifiers it
returns.  The pre-write reads (existence check by `study_id`, capture
of the current `monitoring_schedule`, code generation over existing
codes, site-director lookup) all happen against the initial state, as
in the source, where they precede every write. -/
structure SavePlan where
  steps : List (DB → DB)
  sid : Nat
  aid : Nat
  code : String
  isNew : Bool

/-- The capture of the current `monitoring_schedule` before the header
update (lines 139-148, 178-179): the row re-read by id, NULL when the
read returns nothing. -/
def prevScheduleOf (db : DB) (aid : Nat) : Option String :=
  match db.assessments.find? (fun a => a.id = aid) with
  | some r => r.monitoring_schedule
  | none => none

def savePlanOf (p : Payload) (u : User) (db : DB) : Except Err SavePlan :=
  match saveValidationError p db with
  | some e => .error e
  | none =>
    let sid := p.study_id.getD 0
    let uname := userName u
    let uemail := userEmail u
    let sd := siteDirectorOf db sid
    match db.assessments.find? (fun a => a.study_id = sid) with
    | some ex =>
      .ok ⟨saveSteps p uname uemail sid ex.id ex.assessment_id false
             (prevScheduleOf db ex.id) sd.1 sd.2,
           sid, ex.id, ex.assessment_id, false⟩
    | none =>
      let code := generate_assessment_id (db.assessments.map (fun a => a.assessment_id))
        (getStudy db sid) (p.assessment_date.getD "")
      .ok ⟨saveSteps p uname uemail sid db.next_id code true none sd.1 sd.2,
           sid, db.next_id, code, true⟩

/-- The response dict of `save_assessment` (counts are the raw payload
list lengths, lines 529-543). -/
structure SaveResult where
  assessment_id : Nat
  custom_assessment_id : String
  study_id : Nat
  risk_scores_count : Nat
  mitigation_plans_count : Nat
  summary_comments_count : Nat
  section_comments_count : Nat
deriving DecidableEq, Repr

/-- The post-commit notification attempt of `save_assessment` (lines
513-525): failures are caught and swallowed, leaving the committed
state untouched. -/
def postNotify (db1 : DB) (aid sid : Nat) (uname uemail utype : String) : DB :=
  match create_assessment_submission_notification db1 aid sid uname uemail utype with
  | .ok (d, _) => d
  | .error _ => db1

/-- `AssessmentService.save_assessment` (lines 64-549): validations,
the committed write statements, then the post-commit role
determination and submission notification (notification failures are
caught and swallowed, lines 513-525). -/
def save_assessment (p : Payload) (u : User) (db : DB) : Except Err (DB × SaveResult) :=
  (savePlanOf p u db).map (fun pl =>
    let db1 := applySteps db pl.steps
    let utype := determineUserType db1 pl.sid (userEmail u)
    let db2 := postNotify db1 pl.aid pl.sid (userName u) (userEmail u) utype
    (db2, { assessment_id := pl.aid
            custom_assessment_id := pl.code
            study_id := pl.sid
            risk_scores_count := p.risk_scores.length
            mitigation_plans_count := p.risk_mitigation_plans.length
            summary_comments_count := p.summary_comments.length
            section_comments_count := p.section_comments.length }))

/-- The committed state when the save's write statement number `k`
(0-based) fails mid-sequence: statements `0..k-1` were each already
committed by `execute_query`; the failing statement's rollback undoes
only itself. -/
def saveCommittedAfterFailure (p : Payload) (u : User) (db : DB) (k : Nat) :
    Except Err DB :=
  (savePlanOf p u db).map (fun pl => applySteps db (pl.steps.take k))

/-! ## AssessmentService.save_assessment_draft (lines 690-1012) -/

/-- The minimal validations of the draft save (lines 708-722): only
the study id is required and checked for existence; risk-factor ids
are never validated against the catalog. -/
def draftValidationError (p : Payload) (db : DB) : Option Err :=
  if ¬ truthyOptNat p.study_id then
    some ⟨400, "Study ID is required for draft save"⟩
  else if (db.studies.find? (fun s => s.id = p.study_id.getD 0)).isNone then
    some ⟨400, "Study ID does not exist"⟩
  else
    none

/-- The draft's per-entry guard (line 827): the entry is written only
when `risk_factor_id`, `severity` and `likelihood` are all truthy
(present and non-zero). -/
def draftEntryComplete (e : RiskScoreEntry) : Bool :=
  truthyOptNat e.risk_factor_id && truthyOptInt e.severity && truthyOptInt e.likelihood

/-- The draft's header UPDATE (lines 741-767):
`assessment_date = COALESCE(%s, assessment_date)`, every other field
set from the payload, status forced to `'In Progress'`. -/
def draftHeaderUpdate (p : Payload) (uname uemail : String) (aid : Nat)
    (a : Assessment) : Assessment :=
  if a.id = aid then
    { a with assessment_date :=
               (match p.assessment_date with
                | none => a.assessment_date
                | some s => some s),
             next_review_date := p.next_review_date,
             monitoring_schedule := p.monitoring_schedule,
             overall_risk_score := p.overall_risk_score,
             overall_risk_level := p.overall_risk_level,
             comments := p.comments,
             updated_by_name := uname,
             updated_by_email := uemail,
             status := "In Progress" }
  else a

/-- The assessment id the draft writes under (the existing row's id,
or the fresh serial on the insert path). -/
def draftAid (p : Payload) (db : DB) : Nat :=
  match db.assessments.find? (fun a => a.study_id = p.study_id.getD 0) with
  | some ex => ex.id
  | none => db.next_id

/-- The draft's header upsert (lines 727-815): the existing row's id
and code with the in-place update, or a fresh insert with the
generated code (`assessment_date or datetime.now().date()`). -/
def draftHeader (p : Payload) (u : User) (db : DB) : Nat × String × DB :=
  match db.assessments.find? (fun a => a.study_id = p.study_id.getD 0) with
  | some ex =>
    (ex.id, ex.assessment_id,
     { db with assessments :=
         db.assessments.map (draftHeaderUpdate p (userName u) (userEmail u) ex.id) })
  | none =>
    let date := pyOr p.assessment_date db.today
    let code := generate_assessment_id
      (db.assessments.map (fun a : Assessment => a.assessment_id))
      (getStudy db (p.study_id.getD 0)) date
    let row := { newAssessmentRow p (userName u) (userEmail u) code (p.study_id.getD 0)
                   db.next_id with assessment_date := some date }
    (db.next_id, code,
     { db with assessments := db.assessments ++ [row], next_id := db.next_id + 1 })

/-- Draft risk scores (lines 823-877): only when the payload carries
entries, and only entries passing `draftEntryComplete` are upserted. -/
def draftRiskScores (p : Payload) (aid : Nat) (d : DB) : DB :=
  if p.risk_scores ≠ [] then
    let v := p.risk_scores.foldl
      (fun rows e => if draftEntryComplete e then upsertRisk aid e rows else rows)
      d.risk_scores
    { d with risk_scores := v }
  else d

/-- Draft mitigation plans (lines 879-907): replace only when present
in the payload, keeping plans with at least one truthy key field. -/
def draftPlans (p : Payload) (aid : Nat) (d : DB) : DB :=
  if p.risk_mitigation_plans ≠ [] then
    let v := d.mitigation_plans.filter (fun r => r.assessment_id ≠ aid) ++
      (p.risk_mitigation_plans.filter (fun pl =>
        truthyOptStr pl.risk_item || truthyOptStr pl.responsible_person ||
        truthyOptStr pl.mitigation_strategy)).map (planRowOf aid)
    { d with mitigation_plans := v }
  else d

/-- Draft dashboard (lines 909-935): replace only when present. -/
def draftDashboard (p : Payload) (aid : Nat) (d : DB) : DB :=
  match p.risk_dashboard with
  | some dash =>
    let v := d.dashboards.filter (fun r => r.assessment_id ≠ aid) ++ [dashboardRowOf aid dash]
    { d with dashboards := v }
  | none => d

/-- Draft summary comments (lines 937-962): replace only when present,
keeping comments with truthy text. -/
def draftSummaries (p : Payload) (u : User) (aid : Nat) (d : DB) : DB :=
  if p.summary_comments ≠ [] then
    let v := d.summary_comments.filter (fun r => r.assessment_id ≠ aid) ++
      ((p.summary_comments.filter (fun c => truthyOptStr c.comment_text)).map
        (fun c => summaryRowOf aid (userName u) (userEmail u) c d.now))
    { d with summary_comments := v, now := d.now + 1 }
  else d

/-- Draft section comments (lines 964-988). -/
def draftSections (p : Payload) (aid : Nat) (d : DB) : DB :=
  if p.section_comments ≠ [] then
    let v := d.section_comments.filter (fun r => r.assessment_id ≠ aid) ++
      ((p.section_comments.filter (fun c => truthyOptStr c.comment_text)).map
        (sectionRowOf aid))
    { d with section_comments := v }
  else d

/-- The store after a successful draft save: header upsert, then the
five conditional child-collection replacements in source order. -/
def draftFinal (p : Payload) (u : User) (db : DB) : DB :=
  draftSections p (draftHeader p u db).1
    (draftSummaries p u (draftHeader p u db).1
      (draftDashboard p (draftHeader p u db).1
        (draftPlans p (draftHeader p u db).1
          (draftRiskScores p (draftHeader p u db).1 (draftHeader p u db).2.2))))

/-- The draft's response payload (lines 995-1006): the counts are the
raw payload list lengths, independent of what was actually written. -/
def draftResult (p : Payload) (u : User) (db : DB) : SaveResult :=
  { assessment_id := (draftHeader p u db).1
    custom_assessment_id := (draftHeader p u db).2.1
    study_id := p.study_id.getD 0
    risk_scores_count := p.risk_scores.length
    mitigation_plans_count := p.risk_mitigation_plans.length
    summary_comments_count := p.summary_comments.length
    section_comments_count := p.section_comments.length }

/-- `AssessmentService.save_assessment_draft` (lines 690-1012): upsert
of the header (status kept `'In Progress'`), then child collections
mutated only when present in the payload; risk-score entries failing
`draftEntryComplete` are silently skipped; no notification, timeline
or approval record is touched; the returned counts are the raw
payload list lengths (lines 995-1006). -/
def save_assessment_draft (p : Payload) (u : User) (db : DB) :
    Except Err (DB × SaveResult) :=
  match draftValidationError p db with
  | some e => .error e
  | none => .ok (draftFinal p u db, draftResult p u db)

/-! ## Concrete fixtures used by counterexamples and witnesses -/

def emptyDB : DB :=
  { studies := []
    assessments := []
    risk_factors := []
    risk_scores := []
    mitigation_plans := []
    dashboards := []
    summary_comments := []
    section_comments := []
    approvals := []
    timeline := []
    notifications := []
    audit_trail := []
    next_id := 1
    now := 100
    today := "20250101" }

def studyFix : Study :=
  { id := 7
    site := "Alpha Research Center"
    sponsor_code := "CFP"
    protocol := "CIN110112"
    principal_investigator := some "Alice Park"
    principal_investigator_email := some "alice@x.com"
    site_director := some "Sam Dale"
    site_director_email := some "sam@x.com"
    status := "Active" }

def userFix : User := ⟨some "Alice Park", some "alice@x.com"⟩

/-- An existing assessment row for study 7, with a configurable status
and stored monitoring schedule. -/
def assessFix (status : String) (sched : Option String) : Assessment :=
  { id := 1
    study_id := 7
    assessment_id := "ARC-CFP-CIN-20250101-001"
    status := status
    assessment_date := some "2025-01-01"
    next_review_date := none
    monitoring_schedule := sched
    overall_risk_score := some 10
    overall_risk_level := some "High"
    comments := none
    conducted_by_name := "Alice Park"
    conducted_by_email := "alice@x.com"
    updated_by_name := "Alice Park"
    updated_by_email := "alice@x.com" }

/-- A baseline full-save payload for study 7 scoring factor 3, with a
configurable monitoring schedule. -/
def payloadFix (sched : Option String) : Payload :=
  { study_id := some 7
    assessment_date := some "2025-01-10"
    next_review_date := none
    monitoring_schedule := sched
    overall_risk_score := some 12
    overall_risk_level := some "High"
    comments := some "ok"
    risk_scores := [⟨some 3, some 4, some 3, some 12, some "High", none, none⟩]
    risk_mitigation_plans := []
    risk_dashboard := none
    summary_comments := []
    section_comments := [] }

/-- C1: a study with an approved assessment, a stored mitigation plan,
and schedule `'Monthly'`. -/
def c1DB : DB :=
  { emptyDB with
      studies := [studyFix]
      assessments := [assessFix "Approved" (some "Monthly")]
      risk_factors := [⟨3, true⟩]
      mitigation_plans := [⟨1, some "Drift", some "Sam Dale", some "Audit", none, "Pending", "High"⟩]
      next_id := 2 }

/-- C2: the same study with no assessment yet (first-save path). -/
def c2NewDB : DB :=
  { emptyDB with studies := [studyFix], risk_factors := [⟨3, true⟩] }

/-- C2: the same study with one pending assessment (re-save path). -/
def c2UpdDB : DB :=
  { emptyDB with
      studies := [studyFix]
      assessments := [assessFix "Pending Review" (some "Monthly")]
      risk_factors := [⟨3, true⟩]
      next_id := 2 }

/-- C3: a pending assessment that already carries the save-produced
`'Initial Save'` approval record. -/
def c3DB : DB :=
  { emptyDB with
      studies := [studyFix]
      assessments := [assessFix "Pending Review" (some "Monthly")]
      approvals := [⟨10, 1, "Initial Save", "Sam Dale", "sam@x.com",
        some "Assessment saved", some "Assessment data saved successfully", 90⟩]
      next_id := 11 }

def c3Req : ApprovalRequest :=
  { study_id := 7
    assessment_id := 1
    action := "Approved"
    reason := "looks good"
    comments := none
    action_by_name := "Sam Dale"
    action_by_email := "sam@x.com" }

/-- C4: an existing assessment whose stored monitoring schedule is
NULL. -/
def c4NullDB : DB :=
  { emptyDB with
      studies := [studyFix]
      assessments := [assessFix "Pending Review" none]
      risk_factors := [⟨3, true⟩]
      next_id := 2 }

/-- C5: one terminal and one pending assessment. -/
def c5DB : DB :=
  { emptyDB with
      studies := [studyFix]
      assessments := [assessFix "Approved" (some "Monthly"),
        { assessFix "Pending Review" (some "Monthly") with id := 2 }]
      next_id := 3 }

def c5ReqBlank : ApprovalRequest :=
  { study_id := 7
    assessment_id := 2
    action := "Rejected"
    reason := "   "
    comments := none
    action_by_name := "Sam Dale"
    action_by_email := "sam@x.com" }

/-- C7: an audit trail holding one `'Risk Score'` change and one
`'Severity'` change for assessment 1. -/
def c7DB : DB :=
  { emptyDB with
      audit_trail :=
        [⟨1, 1, some 3, "Risk Score", some "8", some "12", "Alice Park", "alice@x.com", none, 50⟩,
         ⟨2, 1, some 3, "Severity", some "2", some "4", "Alice Park", "alice@x.com", none, 60⟩] }

/-- C8: existing codes for the same site/sponsor/protocol/date prefix. -/
def c8Codes : List String :=
  ["ARC-CFP-CIN-20250220-001", "ARC-CFP-CIN-20250220-003", "ARC-CFP-CIN-20250219-009",
   "XYZ-CFP-CIN-20250220-004"]

/-- C9: a notification store whose only row has id 1. -/
def c9DB : DB :=
  { emptyDB with
      notifications :=
        [⟨1, 1, "Initial Save", "Alice Park", "alice@x.com", "Assessment saved",
          some "c", "SD", 7, 5, true, 5⟩]
      next_id := 2 }

/-- C10: a draft payload whose second risk-score entry has severity 0
(falsy) and whose factor id 99 is absent from the catalog. -/
def c10Payload : Payload :=
  { study_id := some 7
    assessment_date := none
    next_review_date := none
    monitoring_schedule := some "Monthly"
    overall_risk_score := none
    overall_risk_level := none
    comments := none
    risk_scores := [⟨some 99, some 4, some 3, some 12, some "High", none, none⟩,
                    ⟨some 3, some 0, some 3, none, none, none, none⟩,
                    ⟨none, some 2, some 2, none, none, none, none⟩]
    risk_mitigation_plans := []
    risk_dashboard := none
    summary_comments := []
    section_comments := [] }

/-- C10: store with an empty risk-factor catalog. -/
def c10DB : DB :=
  { emptyDB with
      studies := [studyFix]
      assessments := [assessFix "In Progress" none]
      risk_factors := []
      next_id := 2 }

/-! ## Helper lemmas -/

theorem applySteps_nil (db : DB) : applySteps db [] = db := rfl

theorem applySteps_cons (db : DB) (f : DB → DB) (fs : List (DB → DB)) :
    applySteps db (f :: fs) = applySteps (f db) fs := rfl

theorem applySteps_append (db : DB) (fs gs : List (DB → DB)) :
    applySteps db (fs ++ gs) = applySteps (applySteps db fs) gs := by
  simp [applySteps, List.foldl_append]

/-- A projection preserved by every statement of a list is preserved
by their sequential execution. -/
theorem applySteps_proj {α : Type} (proj : DB → α) (fs : List (DB → DB))
    (h : ∀ f ∈ fs, ∀ d : DB, proj (f d) = proj d) :
    ∀ d : DB, proj (applySteps d fs) = proj d := by
  induction fs with
  | nil => intro d; rfl
  | cons f fs ih =>
    intro d
    rw [applySteps_cons, ih (fun g hg d => h g (List.mem_cons_of_mem f hg) d),
      h f (List.mem_cons_self f fs)]

theorem find?_eq_head?_filter {α : Type} (P : α → Bool) (l : List α) :
    l.find? P = (l.filter P).head? := by
  induction l with
  | nil => rfl
  | cons a l ih =>
    by_cases h : P a
    · simp [List.find?_cons, List.filter_cons, h]
    · simp only [List.find?_cons, List.filter_cons, h]
      simp only [Bool.false_eq_true, if_false]
      exact ih

/-- `handleTimelineStep` touches only the timeline (and the clock). -/
theorem handleTimelineStep_assessments (sid aid : Nat) (p : Payload)
    (uname uemail : String) (isNew : Bool) (prev : Option String) (d : DB) :
    (handleTimelineStep sid aid p uname uemail isNew prev d).assessments = d.assessments := by
  unfold handleTimelineStep
  cases isNew with
  | true => rfl
  | false =>
    cases prev with
    | none => rfl
    | some s =>
      dsimp only
      by_cases h : p.monitoring_schedule = some s
      · rw [if_pos h]
        rfl
      · rw [if_neg h]
        rfl

theorem handleTimelineStep_approvals (sid aid : Nat) (p : Payload)
    (uname uemail : String) (isNew : Bool) (prev : Option String) (d : DB) :
    (handleTimelineStep sid aid p uname uemail isNew prev d).approvals = d.approvals := by
  unfold handleTimelineStep
  cases isNew with
  | true => rfl
  | false =>
    cases prev with
    | none => rfl
    | some s =>
      dsimp only
      by_cases h : p.monitoring_schedule = some s
      · rw [if_pos h]
        rfl
      · rw [if_neg h]
        rfl

/-- The statements between step 1 and the timeline handler leave the
assessments, timeline and approvals tables untouched. -/
theorem preTimelineSteps_preserve (p : Payload) (uname uemail : String) (aid : Nat) :
    ∀ f ∈ preTimelineSteps p uname uemail aid, ∀ d : DB,
      (f d).assessments = d.assessments ∧ (f d).timeline = d.timeline ∧
      (f d).approvals = d.approvals := by
  intro f hf d
  unfold preTimelineSteps at hf
  cases hdash : p.risk_dashboard <;>
    simp only [hdash, List.mem_append, List.mem_map, List.mem_singleton,
      List.not_mem_nil, or_false, false_or] at hf
  · rcases hf with (⟨e, _, rfl⟩ | ⟨pl, _, rfl⟩) | ⟨c, _, rfl⟩ <;> exact ⟨rfl, rfl, rfl⟩
  · rcases hf with ((⟨e, _, rfl⟩ | ⟨pl, _, rfl⟩) | rfl) | ⟨c, _, rfl⟩ <;> exact ⟨rfl, rfl, rfl⟩

/-- The statements after the timeline handler leave the assessments
and timeline tables untouched. -/
theorem postTimelineSteps_preserve (p : Payload) (aid : Nat) (sdn sde : String) :
    ∀ f ∈ postTimelineSteps p aid sdn sde, ∀ d : DB,
      (f d).assessments = d.assessments ∧ (f d).timeline = d.timeline := by
  intro f hf d
  unfold postTimelineSteps at hf
  simp only [List.mem_append, List.mem_map, List.mem_cons, List.mem_singleton,
    List.not_mem_nil, or_false] at hf
  rcases hf with ⟨c, _, rfl⟩ | rfl | rfl <;> exact ⟨rfl, rfl⟩

/-- Every statement after step 1 preserves the assessments table. -/
theorem saveTailSteps_preserve_assessments (p : Payload) (uname uemail : String)
    (sid aid : Nat) (isNew : Bool) (prev : Option String) (sdn sde : String) :
    ∀ f ∈ saveTailSteps p uname uemail sid aid isNew prev sdn sde, ∀ d : DB,
      (f d).assessments = d.assessments := by
  intro f hf d
  unfold saveTailSteps at hf
  simp only [List.mem_append, List.mem_singleton] at hf
  rcases hf with (hpre | rfl) | hpost
  · exact (preTimelineSteps_preserve p uname uemail aid f hpre d).1
  · exact handleTimelineStep_assessments sid aid p uname uemail isNew prev d
  · exact (postTimelineSteps_preserve p aid sdn sde f hpost d).1

/-- A successful `create_notification` touches only the notifications
table (and the id/clock counters). -/
theorem create_notification_ok_preserves (db : DB) (inp : NotificationInput) (d : DB)
    (r : Nat) (h : create_notification db inp = .ok (d, r)) :
    d.assessments = db.assessments ∧ d.approvals = db.approvals ∧
    d.timeline = db.timeline ∧ d.risk_scores = db.risk_scores := by
  unfold create_notification at h
  split at h
  · exact absurd h (by simp)
  · simp only [Except.ok.injEq, Prod.mk.injEq] at h
    obtain ⟨h1, _⟩ := h
    subst h1
    exact ⟨rfl, rfl, rfl, rfl⟩

theorem submission_notification_ok_preserves (db : DB) (aid sid : Nat)
    (n e t : String) (d : DB) (r : Nat)
    (h : create_assessment_submission_notification db aid sid n e t = .ok (d, r)) :
    d.assessments = db.assessments ∧ d.approvals = db.approvals ∧
    d.timeline = db.timeline ∧ d.risk_scores = db.risk_scores := by
  unfold create_assessment_submission_notification at h
  exact create_notification_ok_preserves _ _ _ _ h

/-- The swallowed post-commit notification leaves every table of the
committed save state untouched except the notifications feed. -/
theorem postNotify_preserves (db1 : DB) (aid sid : Nat) (uname uemail utype : String) :
    (postNotify db1 aid sid uname uemail utype).assessments = db1.assessments ∧
    (postNotify db1 aid sid uname uemail utype).approvals = db1.approvals ∧
    (postNotify db1 aid sid uname uemail utype).timeline = db1.timeline ∧
    (postNotify db1 aid sid uname uemail utype).risk_scores = db1.risk_scores := by
  unfold postNotify
  cases h : create_assessment_submission_notification db1 aid sid uname uemail utype with
  | ok pr =>
    obtain ⟨d, r⟩ := pr
    exact submission_notification_ok_preserves db1 aid sid uname uemail utype d r h
  | error e => exact ⟨rfl, rfl, rfl, rfl⟩

/-- Unfolding of `savePlanOf` on the update path. -/
theorem savePlanOf_update_eq (p : Payload) (u : User) (db : DB) (ex : Assessment)
    (hv : saveValidationError p db = none)
    (hex : db.assessments.find? (fun a => a.study_id = p.study_id.getD 0) = some ex) :
    savePlanOf p u db =
      .ok ⟨saveSteps p (userName u) (userEmail u) (p.study_id.getD 0) ex.id
             ex.assessment_id false (prevScheduleOf db ex.id)
             (siteDirectorOf db (p.study_id.getD 0)).1
             (siteDirectorOf db (p.study_id.getD 0)).2,
           p.study_id.getD 0, ex.id, ex.assessment_id, false⟩ := by
  unfold savePlanOf
  rw [hv]
  dsimp only
  rw [hex]

/-- Unfolding of `savePlanOf` on the first-save path. -/
theorem savePlanOf_new_eq (p : Payload) (u : User) (db : DB)
    (hv : saveValidationError p db = none)
    (hex : db.assessments.find? (fun a => a.study_id = p.study_id.getD 0) = none) :
    savePlanOf p u db =
      .ok ⟨saveSteps p (userName u) (userEmail u) (p.study_id.getD 0) db.next_id
             (generate_assessment_id (db.assessments.map (fun a => a.assessment_id))
               (getStudy db (p.study_id.getD 0)) (p.assessment_date.getD ""))
             true none
             (siteDirectorOf db (p.study_id.getD 0)).1
             (siteDirectorOf db (p.study_id.getD 0)).2,
           p.study_id.getD 0, db.next_id,
           generate_assessment_id (db.assessments.map (fun a => a.assessment_id))
             (getStudy db (p.study_id.getD 0)) (p.assessment_date.getD ""), true⟩ := by
  unfold savePlanOf
  rw [hv]
  dsimp only
  rw [hex]

theorem filter_after_filter_ne (l : List ApprovalRow) (aid : Nat) :
    (l.filter (fun r => r.assessment_id ≠ aid)).filter (fun r => r.assessment_id = aid) = [] := by
  induction l with
  | nil => rfl
  | cons a l ih =>
    by_cases h : a.assessment_id = aid
    · simp [List.filter_cons, h, ih]
    · simp [List.filter_cons, h, ih]

/-- The approvals table after the save's final two statements
(conditional delete + insert): whatever the state reached, exactly one
`'Initial Save'` record for the assessment remains. -/
theorem approvals_after_tail (p : Payload) (uname uemail : String) (sid aid : Nat)
    (isNew : Bool) (prev : Option String) (sdn sde : String) (X : DB) :
    ∃ row : ApprovalRow,
      ((applySteps X (saveTailSteps p uname uemail sid aid isNew prev sdn sde)).approvals.filter
        (fun r => r.assessment_id = aid)) = [row] ∧ row.action = "Initial Save" := by
  rw [saveTailSteps, applySteps_append, applySteps_append]
  rw [postTimelineSteps, applySteps_append]
  generalize applySteps
    (applySteps (applySteps X (preTimelineSteps p uname uemail aid))
      [handleTimelineStep sid aid p uname uemail isNew prev])
    (p.section_comments.map (fun c => sectionInsertStep aid c)) = Z
  refine ⟨initialSaveApprovalRow aid sdn sde Z.next_id Z.now, ?_, rfl⟩
  have hZ : (applySteps Z [deleteApprovalsStep aid, approvalInsertStep aid sdn sde]).approvals =
      (Z.approvals.filter (fun r => r.assessment_id ≠ aid)) ++
      [initialSaveApprovalRow aid sdn sde Z.next_id Z.now] := rfl
  rw [hZ, List.filter_append, filter_after_filter_ne]
  simp [initialSaveApprovalRow]

/-- The update-path head statements: header update plus the five
replace-deletes. -/
def updateHeadSteps (p : Payload) (uname uemail : String) (aid : Nat) : List (DB → DB) :=
  [headerUpdateStep p uname uemail aid,
   deletePlansStep aid, deleteDashboardStep aid, deleteSummaryStep aid,
   deleteSectionStep aid, deleteApprovalsStep aid]

theorem saveSteps_update (p : Payload) (uname uemail : String) (sid aid : Nat)
    (code : String) (prev : Option String) (sdn sde : String) :
    saveSteps p uname uemail sid aid code false prev sdn sde =
      updateHeadSteps p uname uemail aid ++
      saveTailSteps p uname uemail sid aid false prev sdn sde := by
  rw [saveSteps, updateHeadSteps]
  simp

/-- On the update path with a non-NULL, differing previous schedule,
the timeline handler appends exactly one `"Schedule Update: ..."` row. -/
theorem handleTimeline_changed (sid aid : Nat) (p : Payload) (uname uemail s : String)
    (Y : DB) (hsched : p.monitoring_schedule ≠ some s) :
    ∃ row : TimelineRow,
      (handleTimelineStep sid aid p uname uemail false (some s) Y).timeline =
        Y.timeline ++ [row] ∧
      row.schedule_type = "Schedule Update: " ++ pyStrOpt p.monitoring_schedule := by
  unfold handleTimelineStep
  simp only [Bool.false_eq_true, if_false]
  rw [if_neg hsched]
  exact ⟨_, rfl, rfl⟩

/-- Effects of a successful save on the update path. -/
theorem save_update_effects (p : Payload) (u : User) (db : DB) (ex : Assessment)
    (hv : saveValidationError p db = none)
    (hex : db.assessments.find? (fun a => a.study_id = p.study_id.getD 0) = some ex) :
    ∃ db' r, save_assessment p u db = .ok (db', r) ∧
      r.assessment_id = ex.id ∧
      db'.assessments =
        db.assessments.map (headerUpdate p (userName u) (userEmail u) ex.id) ∧
      (∃ row : ApprovalRow,
        db'.approvals.filter (fun a => a.assessment_id = ex.id) = [row] ∧
        row.action = "Initial Save") ∧
      (prevScheduleOf db ex.id = none → db'.timeline = db.timeline) ∧
      (∀ s, prevScheduleOf db ex.id = some s → p.monitoring_schedule = some s →
        db'.timeline = db.timeline) ∧
      (∀ s, prevScheduleOf db ex.id = some s → p.monitoring_schedule ≠ some s →
        ∃ entry : TimelineRow, db'.timeline = db.timeline ++ [entry] ∧
          entry.schedule_type = "Schedule Update: " ++ pyStrOpt p.monitoring_schedule) := by
  have hplan := savePlanOf_update_eq p u db ex hv hex
  have huname : userName u = userName u := rfl
  -- abbreviations
  let uname := userName u
  let uemail := userEmail u
  let sid := p.study_id.getD 0
  let prev := prevScheduleOf db ex.id
  let sdn := (siteDirectorOf db sid).1
  let sde := (siteDirectorOf db sid).2
  let steps := saveSteps p uname uemail sid ex.id ex.assessment_id false prev sdn sde
  let db1 := applySteps db steps
  let db' := postNotify db1 ex.id sid uname uemail (determineUserType db1 sid uemail)
  have hsave : save_assessment p u db =
      .ok (db', ⟨ex.id, ex.assessment_id, sid, p.risk_scores.length,
        p.risk_mitigation_plans.length, p.summary_comments.length,
        p.section_comments.length⟩) := by
    unfold save_assessment
    rw [hplan]
    rfl
  -- the committed state decomposed around the timeline statement
  have hsplit : db1 =
      applySteps
        (applySteps
          (applySteps
            (applySteps (applySteps db (updateHeadSteps p uname uemail ex.id))
              (preTimelineSteps p uname uemail ex.id))
            [handleTimelineStep sid ex.id p uname uemail false prev])
          (p.section_comments.map (fun c => sectionInsertStep ex.id c)))
        [deleteApprovalsStep ex.id, approvalInsertStep ex.id sdn sde] := by
    show applySteps db steps = _
    rw [show steps = saveSteps p uname uemail sid ex.id ex.assessment_id false prev sdn sde
      from rfl]
    rw [saveSteps_update, saveTailSteps, postTimelineSteps]
    rw [applySteps_append, applySteps_append, applySteps_append, applySteps_append]
  have hheadA : (applySteps db (updateHeadSteps p uname uemail ex.id)).assessments =
      db.assessments.map (headerUpdate p uname uemail ex.id) := rfl
  have hheadT : (applySteps db (updateHeadSteps p uname uemail ex.id)).timeline =
      db.timeline := rfl
  have hpreT : ∀ Y : DB,
      (applySteps Y (preTimelineSteps p uname uemail ex.id)).timeline = Y.timeline :=
    applySteps_proj DB.timeline _
      (fun f hf d => (preTimelineSteps_preserve p uname uemail ex.id f hf d).2.1)
  have hpreA : ∀ Y : DB,
      (applySteps Y (preTimelineSteps p uname uemail ex.id)).assessments = Y.assessments :=
    applySteps_proj DB.assessments _
      (fun f hf d => (preTimelineSteps_preserve p uname uemail ex.id f hf d).1)
  have hpostT : ∀ Y : DB,
      (applySteps Y (p.section_comments.map (fun c => sectionInsertStep ex.id c))).timeline =
        Y.timeline :=
    applySteps_proj DB.timeline _ (by
      intro f hf d
      simp only [List.mem_map] at hf
      obtain ⟨c, _, rfl⟩ := hf
      rfl)
  refine ⟨db', _, hsave, rfl, ?_, ?_, ?_, ?_, ?_⟩
  · -- assessments
    have h1 : db'.assessments = db1.assessments := (postNotify_preserves _ _ _ _ _ _).1
    rw [h1]
    have h2 : db1.assessments =
        (applySteps db (updateHeadSteps p uname uemail ex.id)).assessments := by
      rw [show db1.assessments = (applySteps db steps).assessments from rfl,
        show steps = saveSteps p uname uemail sid ex.id ex.assessment_id false prev sdn sde
          from rfl,
        saveSteps_update, applySteps_append]
      exact applySteps_proj DB.assessments _
        (saveTailSteps_preserve_assessments p uname uemail sid ex.id false prev sdn sde) _
    rw [h2, hheadA]
  · -- approvals
    have h1 : db'.approvals = db1.approvals := (postNotify_preserves _ _ _ _ _ _).2.1
    rw [h1]
    have h2 : db1.approvals =
        (applySteps (applySteps db (updateHeadSteps p uname uemail ex.id))
          (saveTailSteps p uname uemail sid ex.id false prev sdn sde)).approvals := by
      rw [show db1.approvals = (applySteps db steps).approvals from rfl,
        show steps = saveSteps p uname uemail sid ex.id ex.assessment_id false prev sdn sde
          from rfl,
        saveSteps_update, applySteps_append]
    rw [h2]
    exact approvals_after_tail p uname uemail sid ex.id false prev sdn sde _
  · -- timeline, NULL previous schedule: nothing appended
    intro hp
    have h1 : db'.timeline = db1.timeline := (postNotify_preserves _ _ _ _ _ _).2.2.1
    rw [h1, hsplit]
    rw [show (applySteps _ [deleteApprovalsStep ex.id, approvalInsertStep ex.id sdn sde]).timeline =
      (applySteps
        (applySteps
          (applySteps (applySteps db (updateHeadSteps p uname uemail ex.id))
            (preTimelineSteps p uname uemail ex.id))
          [handleTimelineStep sid ex.id p uname uemail false prev])
        (p.section_comments.map (fun c => sectionInsertStep ex.id c))).timeline from rfl]
    rw [hpostT]
    rw [show (applySteps _ [handleTimelineStep sid ex.id p uname uemail false prev]) =
      handleTimelineStep sid ex.id p uname uemail false prev
        (applySteps (applySteps db (updateHeadSteps p uname uemail ex.id))
          (preTimelineSteps p uname uemail ex.id)) from rfl]
    rw [show prev = prevScheduleOf db ex.id from rfl] at *
    rw [hp]
    rw [show (handleTimelineStep sid ex.id p uname uemail false none
      (applySteps (applySteps db (updateHeadSteps p uname uemail ex.id))
        (preTimelineSteps p uname uemail ex.id))).timeline =
      (applySteps (applySteps db (updateHeadSteps p uname uemail ex.id))
        (preTimelineSteps p uname uemail ex.id)).timeline from rfl]
    rw [hpreT, hheadT]
  · -- timeline, unchanged schedule: nothing appended
    intro s hp hsched
    have h1 : db'.timeline = db1.timeline := (postNotify_preserves _ _ _ _ _ _).2.2.1
    rw [h1, hsplit]
    rw [show (applySteps _ [deleteApprovalsStep ex.id, approvalInsertStep ex.id sdn sde]).timeline =
      (applySteps
        (applySteps
          (applySteps (applySteps db (updateHeadSteps p uname uemail ex.id))
            (preTimelineSteps p uname uemail ex.id))
          [handleTimelineStep sid ex.id p uname uemail false prev])
        (p.section_comments.map (fun c => sectionInsertStep ex.id c))).timeline from rfl]
    rw [hpostT]
    rw [show (applySteps _ [handleTimelineStep sid ex.id p uname uemail false prev]) =
      handleTimelineStep sid ex.id p uname uemail false prev
        (applySteps (applySteps db (updateHeadSteps p uname uemail ex.id))
          (preTimelineSteps p uname uemail ex.id)) from rfl]
    rw [show prev = prevScheduleOf db ex.id from rfl] at *
    rw [hp]
    unfold handleTimelineStep
    simp only [Bool.false_eq_true, if_false]
    rw [if_pos hsched]
    rw [hpreT, hheadT]
  · -- timeline, changed non-NULL schedule: exactly one entry appended
    intro s hp hsched
    have h1 : db'.timeline = db1.timeline := (postNotify_preserves _ _ _ _ _ _).2.2.1
    obtain ⟨row, hrow, hst⟩ := handleTimeline_changed sid ex.id p uname uemail s
      (applySteps (applySteps db (updateHeadSteps p uname uemail ex.id))
        (preTimelineSteps p uname uemail ex.id)) hsched
    refine ⟨row, ?_, hst⟩
    rw [h1, hsplit]
    rw [show (applySteps _ [deleteApprovalsStep ex.id, approvalInsertStep ex.id sdn sde]).timeline =
      (applySteps
        (applySteps
          (applySteps (applySteps db (updateHeadSteps p uname uemail ex.id))
            (preTimelineSteps p uname uemail ex.id))
          [handleTimelineStep sid ex.id p uname uemail false prev])
        (p.section_comments.map (fun c => sectionInsertStep ex.id c))).timeline from rfl]
    rw [hpostT]
    rw [show (applySteps _ [handleTimelineStep sid ex.id p uname uemail false prev]) =
      handleTimelineStep sid ex.id p uname uemail false prev
        (applySteps (applySteps db (updateHeadSteps p uname uemail ex.id))
          (preTimelineSteps p uname uemail ex.id)) from rfl]
    rw [show prev = prevScheduleOf db ex.id from rfl] at *
    rw [hp, hrow, hpreT, hheadT]

theorem saveSteps_new (p : Payload) (uname uemail : String) (sid aid : Nat)
    (code : String) (prev : Option String) (sdn sde : String) :
    saveSteps p uname uemail sid aid code true prev sdn sde =
      [insertAssessmentStep p uname uemail code sid] ++
      saveTailSteps p uname uemail sid aid true prev sdn sde := by
  rw [saveSteps]
  simp

/-- Effects of a successful save on the first-save path. -/
theorem save_new_effects (p : Payload) (u : User) (db : DB)
    (hv : saveValidationError p db = none)
    (hex : db.assessments.find? (fun a => a.study_id = p.study_id.getD 0) = none) :
    ∃ db' r, save_assessment p u db = .ok (db', r) ∧
      r.assessment_id = db.next_id ∧
      db'.assessments = db.assessments ++
        [newAssessmentRow p (userName u) (userEmail u)
          (generate_assessment_id (db.assessments.map (fun a => a.assessment_id))
            (getStudy db (p.study_id.getD 0)) (p.assessment_date.getD ""))
          (p.study_id.getD 0) db.next_id] ∧
      (∃ row : ApprovalRow,
        db'.approvals.filter (fun a => a.assessment_id = db.next_id) = [row] ∧
        row.action = "Initial Save") := by
  have hplan := savePlanOf_new_eq p u db hv hex
  let uname := userName u
  let uemail := userEmail u
  let sid := p.study_id.getD 0
  let code := generate_assessment_id (db.assessments.map (fun a => a.assessment_id))
    (getStudy db sid) (p.assessment_date.getD "")
  let sdn := (siteDirectorOf db sid).1
  let sde := (siteDirectorOf db sid).2
  let steps := saveSteps p uname uemail sid db.next_id code true none sdn sde
  let db1 := applySteps db steps
  let db' := postNotify db1 db.next_id sid uname uemail (determineUserType db1 sid uemail)
  have hsave : save_assessment p u db =
      .ok (db', ⟨db.next_id, code, sid, p.risk_scores.length,
        p.risk_mitigation_plans.length, p.summary_comments.length,
        p.section_comments.length⟩) := by
    unfold save_assessment
    rw [hplan]
    rfl
  refine ⟨db', _, hsave, rfl, ?_, ?_⟩
  · have h1 : db'.assessments = db1.assessments := (postNotify_preserves _ _ _ _ _ _).1
    rw [h1]
    have h2 : db1.assessments = (insertAssessmentStep p uname uemail code sid db).assessments := by
      rw [show db1.assessments = (applySteps db steps).assessments from rfl,
        show steps = saveSteps p uname uemail sid db.next_id code true none sdn sde from rfl,
        saveSteps_new, applySteps_append]
      exact applySteps_proj DB.assessments _
        (saveTailSteps_preserve_assessments p uname uemail sid db.next_id true none sdn sde) _
    rw [h2]
    rfl
  · have h1 : db'.approvals = db1.approvals := (postNotify_preserves _ _ _ _ _ _).2.1
    rw [h1]
    have h2 : db1.approvals =
        (applySteps (insertAssessmentStep p uname uemail code sid db)
          (saveTailSteps p uname uemail sid db.next_id true none sdn sde)).approvals := by
      rw [show db1.approvals = (applySteps db steps).approvals from rfl,
        show steps = saveSteps p uname uemail sid db.next_id code true none sdn sde from rfl,
        saveSteps_new, applySteps_append]
      rfl
    rw [h2]
    exact approvals_after_tail p uname uemail sid db.next_id true none sdn sde _

theorem headerUpdate_study_id (p : Payload) (uname uemail : String) (aid : Nat)
    (a : Assessment) : (headerUpdate p uname uemail aid a).study_id = a.study_id := by
  unfold headerUpdate
  split <;> rfl

theorem headerUpdate_id (p : Payload) (uname uemail : String) (aid : Nat)
    (a : Assessment) : (headerUpdate p uname uemail aid a).id = a.id := by
  unfold headerUpdate
  split <;> rfl

theorem headerUpdate_pos_status (p : Payload) (uname uemail : String) (aid : Nat)
    (a : Assessment) (h : a.id = aid) :
    (headerUpdate p uname uemail aid a).status = "Pending Review" := by
  unfold headerUpdate
  rw [if_pos h]

theorem head?_some_length_one {α : Type} (l : List α) (x : α)
    (h1 : l.head? = some x) (h2 : l.length = 1) : l = [x] := by
  cases l with
  | nil => simp at h1
  | cons a t =>
    cases t with
    | nil =>
      simp only [List.head?_cons, Option.some.injEq] at h1
      rw [h1]
    | cons b t2 => simp at h2

/-- Applying the header update to the first row found by id yields a
`'Pending Review'` row at the same position. -/
theorem find?_map_headerUpdate_status (l : List Assessment) (p : Payload)
    (uname uemail : String) (aid : Nat) (h : ∃ a ∈ l, a.id = aid) :
    ((l.map (headerUpdate p uname uemail aid)).find?
      (fun a => a.id = aid)).map (fun a => a.status) = some "Pending Review" := by
  induction l with
  | nil =>
    obtain ⟨a, ha, _⟩ := h
    exact absurd ha (List.not_mem_nil a)
  | cons a t ih =>
    rw [List.map_cons]
    by_cases hid : a.id = aid
    · rw [List.find?_cons_of_pos]
      · have hred : ((some (headerUpdate p uname uemail aid a)).map
            (fun a : Assessment => a.status)) =
            some ((headerUpdate p uname uemail aid a).status) := rfl
        rw [hred, headerUpdate_pos_status p uname uemail aid a hid]
      · simp [headerUpdate_id, hid]
    · rw [List.find?_cons_of_neg]
      · apply ih
        obtain ⟨b, hb, hbid⟩ := h
        rcases List.mem_cons.mp hb with rfl | hbt
        · exact absurd hbid hid
        · exact ⟨b, hbt, hbid⟩
      · simp [headerUpdate_id, hid]

theorem head?_none_eq_nil {α : Type} (l : List α) (h : l.head? = none) : l = [] := by
  cases l with
  | nil => rfl
  | cons a t => simp at h

theorem filter_study_map_headerUpdate (l : List Assessment) (p : Payload)
    (uname uemail : String) (aid sid : Nat) :
    (l.map (headerUpdate p uname uemail aid)).filter (fun a => a.study_id = sid) =
      (l.filter (fun a => a.study_id = sid)).map (headerUpdate p uname uemail aid) := by
  induction l with
  | nil => rfl
  | cons a t ih =>
    by_cases h : a.study_id = sid
    · simp [List.filter_cons, headerUpdate_study_id, h, ih]
    · simp [List.filter_cons, headerUpdate_study_id, h, ih]

/-! ## Claim C1 -/

/-- C1 counterexample: the claim states the writes of steps 1-7 commit
as a single atomic unit, so a failure at the second write statement
(the mitigation-plan delete) should leave no trace of the first
(the header update).  On the concrete store `c1DB` (status
`'Approved'`), failing after one committed statement leaves the header
already forced to `'Pending Review'` and the old mitigation plan still
present: the earlier step's write remains committed. -/
theorem save_atomic_commit_counterexample :
    ((saveCommittedAfterFailure (payloadFix (some "Monthly")) userFix c1DB 1).toOption.map
      (fun d => (d.assessments.map (fun a => a.status), d.mitigation_plans.length))) =
      some (["Pending Review"], 1) ∧
    c1DB.assessments.map (fun a => a.status) = ["Approved"] := by
  constructor
  · rfl
  · rfl

/-- C1 (amended): the save's write statements are NOT committed as one
atomic unit — `execute_query` commits each non-SELECT statement as it
runs, so when any later statement of the same save fails, every
already-executed statement's write remains committed; in particular,
after a failure at any statement past the first, the step-1 header
update (status forced to `'Pending Review'`) is already durable. -/
theorem save_commits_each_statement (p : Payload) (u : User) (db : DB) (ex : Assessment)
    (hv : saveValidationError p db = none)
    (hex : db.assessments.find? (fun a => a.study_id = p.study_id.getD 0) = some ex)
    (k : Nat) (hk : 1 ≤ k) :
    ∃ dbk, saveCommittedAfterFailure p u db k = .ok dbk ∧
      ((dbk.assessments.find? (fun a => a.id = ex.id)).map (fun a => a.status)) =
        some "Pending Review" := by
  have hplan := savePlanOf_update_eq p u db ex hv hex
  obtain ⟨k', rfl⟩ : ∃ k', k = k' + 1 := ⟨k - 1, by omega⟩
  let uname := userName u
  let uemail := userEmail u
  let sid := p.study_id.getD 0
  let prev := prevScheduleOf db ex.id
  let sdn := (siteDirectorOf db sid).1
  let sde := (siteDirectorOf db sid).2
  refine ⟨applySteps db
    ((saveSteps p uname uemail sid ex.id ex.assessment_id false prev sdn sde).take (k' + 1)),
    ?_, ?_⟩
  · unfold saveCommittedAfterFailure
    rw [hplan]
    rfl
  · rw [show (saveSteps p uname uemail sid ex.id ex.assessment_id false prev sdn sde) =
      updateHeadSteps p uname uemail ex.id ++
        saveTailSteps p uname uemail sid ex.id false prev sdn sde from
      saveSteps_update p uname uemail sid ex.id ex.assessment_id prev sdn sde]
    rw [show updateHeadSteps p uname uemail ex.id ++
        saveTailSteps p uname uemail sid ex.id false prev sdn sde =
      headerUpdateStep p uname uemail ex.id ::
        ([deletePlansStep ex.id, deleteDashboardStep ex.id, deleteSummaryStep ex.id,
          deleteSectionStep ex.id, deleteApprovalsStep ex.id] ++
          saveTailSteps p uname uemail sid ex.id false prev sdn sde) from rfl]
    rw [List.take_succ_cons, applySteps_cons]
    have hpres : ∀ f ∈ ([deletePlansStep ex.id, deleteDashboardStep ex.id,
        deleteSummaryStep ex.id, deleteSectionStep ex.id, deleteApprovalsStep ex.id] ++
        saveTailSteps p uname uemail sid ex.id false prev sdn sde).take k',
        ∀ d : DB, (f d).assessments = d.assessments := by
      intro f hf d
      have hf' := List.take_subset _ _ hf
      rcases List.mem_append.mp hf' with h5 | htail
      · simp only [List.mem_cons, List.not_mem_nil, or_false] at h5
        rcases h5 with rfl | rfl | rfl | rfl | rfl <;> rfl
      · exact saveTailSteps_preserve_assessments p uname uemail sid ex.id false prev
          sdn sde f htail d
    rw [applySteps_proj DB.assessments _ hpres]
    exact find?_map_headerUpdate_status db.assessments p uname uemail ex.id
      ⟨ex, List.mem_of_find?_eq_some hex, rfl⟩

/-- C1 witness: the amended statement at the concrete store, failing
after two committed statements. -/
theorem save_commits_each_statement_witness :
    ∃ dbk, saveCommittedAfterFailure (payloadFix (some "Monthly")) userFix c1DB 2 = .ok dbk ∧
      ((dbk.assessments.find? (fun a => a.id = 1)).map (fun a => a.status)) =
        some "Pending Review" :=
  save_commits_each_statement (payloadFix (some "Monthly")) userFix c1DB
    (assessFix "Approved" (some "Monthly")) (by decide) (by decide) 2 (by decide)

/-! ## Claim C2 -/

/-- C2: for every study, the first save inserts exactly one Assessment
row with status `'In Progress'`, and every subsequent save on a study
whose assessment-row count is 1 keeps the count at 1, updates the same
row in place (same id) and forces its status to `'Pending Review'`. -/
theorem save_upserts_single_assessment (p : Payload) (u : User) (db : DB)
    (hv : saveValidationError p db = none) :
    (db.assessments.find? (fun a => a.study_id = p.study_id.getD 0) = none →
      ∃ db' r arow, save_assessment p u db = .ok (db', r) ∧
        db'.assessments.filter (fun a => a.study_id = p.study_id.getD 0) = [arow] ∧
        arow.status = "In Progress") ∧
    (∀ ex, db.assessments.find? (fun a => a.study_id = p.study_id.getD 0) = some ex →
      (db.assessments.filter (fun a => a.study_id = p.study_id.getD 0)).length = 1 →
      ∃ db' r arow, save_assessment p u db = .ok (db', r) ∧
        db'.assessments.filter (fun a => a.study_id = p.study_id.getD 0) = [arow] ∧
        arow.id = ex.id ∧ arow.status = "Pending Review") := by
  constructor
  · intro hex
    obtain ⟨db', r, hsave, _, hassess, _⟩ := save_new_effects p u db hv hex
    refine ⟨db', r, newAssessmentRow p (userName u) (userEmail u)
      (generate_assessment_id (db.assessments.map (fun a => a.assessment_id))
        (getStudy db (p.study_id.getD 0)) (p.assessment_date.getD ""))
      (p.study_id.getD 0) db.next_id, hsave, ?_, rfl⟩
    rw [hassess, List.filter_append]
    have hnil : db.assessments.filter (fun a => a.study_id = p.study_id.getD 0) = [] := by
      apply head?_none_eq_nil
      rw [← find?_eq_head?_filter]
      exact hex
    rw [hnil]
    simp [newAssessmentRow]
  · intro ex hex hlen
    obtain ⟨db', r, hsave, _, hassess, _⟩ := save_update_effects p u db ex hv hex
    refine ⟨db', r, headerUpdate p (userName u) (userEmail u) ex.id ex, hsave, ?_, ?_, ?_⟩
    · rw [hassess, filter_study_map_headerUpdate]
      have hfil : db.assessments.filter (fun a => a.study_id = p.study_id.getD 0) = [ex] := by
        apply head?_some_length_one _ _ _ hlen
        rw [← find?_eq_head?_filter]
        exact hex
      rw [hfil]
      rfl
    · exact headerUpdate_id p (userName u) (userEmail u) ex.id ex
    · apply headerUpdate_pos_status
      rfl

/-- C2 witness: both branches at concrete stores — a first save on
`c2NewDB` (no assessment) and a re-save on `c2UpdDB` (one pending
assessment with id 1). -/
theorem save_upserts_single_assessment_witness :
    (∃ db' r arow, save_assessment (payloadFix (some "Monthly")) userFix c2NewDB = .ok (db', r) ∧
      db'.assessments.filter (fun a => a.study_id = 7) = [arow] ∧
      arow.status = "In Progress") ∧
    (∃ db' r arow, save_assessment (payloadFix (some "Monthly")) userFix c2UpdDB = .ok (db', r) ∧
      db'.assessments.filter (fun a => a.study_id = 7) = [arow] ∧
      arow.id = 1 ∧ arow.status = "Pending Review") := by
  constructor
  · exact (save_upserts_single_assessment (payloadFix (some "Monthly")) userFix c2NewDB
      (by decide)).1 (by decide)
  · exact (save_upserts_single_assessment (payloadFix (some "Monthly")) userFix c2UpdDB
      (by decide)).2 (assessFix "Pending Review" (some "Monthly")) (by decide) (by decide)

/-! ## Claim C3 -/

theorem approval_notification_ok_preserves (db : DB) (aid sid : Nat)
    (sn se ac rs cm : String) (d : DB) (r : Nat)
    (h : create_assessment_approval_notification db aid sid sn se ac rs cm = .ok (d, r)) :
    d.approvals = db.approvals := by
  unfold create_assessment_approval_notification at h
  exact (create_notification_ok_preserves _ _ _ _ h).2.1

/-- `decisionEffects` appends exactly one approval record with the
decision's action, deleting nothing. -/
theorem decisionEffects_approvals (db : DB) (aid : Nat) (req : ApprovalRequest)
    (study_id : Nat) (ns ac dc : String) :
    ∃ row : ApprovalRow,
      (decisionEffects db aid req study_id ns ac dc).approvals = db.approvals ++ [row] ∧
      row.assessment_id = aid ∧ row.action = ac := by
  unfold decisionEffects
  dsimp only
  cases hs : db.studies.find? (fun s => s.id == study_id && s.status != "Inactive") with
  | none => exact ⟨_, rfl, rfl, rfl⟩
  | some st =>
    dsimp only
    cases hn : create_assessment_approval_notification
        { db with
            assessments := db.assessments.map (fun a =>
              if a.id = aid then
                { a with status := ns, updated_by_name := req.action_by_name,
                         updated_by_email := req.action_by_email }
              else a)
            approvals := db.approvals ++
              [{ id := db.next_id, assessment_id := aid, action := ac,
                 action_by_name := req.action_by_name, action_by_email := req.action_by_email,
                 reason := some req.reason, comments := req.comments, action_date := db.now }]
            next_id := db.next_id + 1
            now := db.now + 1 }
        aid study_id req.action_by_name req.action_by_email ac req.reason
        (pyOr req.comments dc) with
    | ok pr =>
      obtain ⟨d, r⟩ := pr
      have hp := approval_notification_ok_preserves _ _ _ _ _ _ _ _ d r hn
      exact ⟨_, hp, rfl, rfl⟩
    | error e => exact ⟨_, rfl, rfl, rfl⟩

/-- C3 counterexample: the claim's invariant (at most one
ApprovalRecord per assessment; after approve exactly one, with prior
records removed) fails on the code: approving the pending assessment
of `c3DB`, which already carries the save-produced `'Initial Save'`
record, leaves TWO approval records. -/
theorem approval_single_record_counterexample :
    ((approve_assessment c3DB 1 c3Req).toOption.map
      (fun d => (d.approvals.filter (fun r => r.assessment_id = 1)).map
        (fun r => r.action))) = some ["Initial Save", "Approved"] := by
  rfl

/-- C3 (amended): `save` does enforce a single record — after any
successful save exactly one ApprovalRecord (action `'Initial Save'`)
exists for the assessment, prior records deleted — but `approve`
merely inserts an additional record with action `'Approved'` without
removing prior ones, so the at-most-one invariant does not survive an
approve on a previously saved assessment. -/
theorem approval_record_amended :
    (∀ p u db, saveValidationError p db = none →
      ∃ db' r row, save_assessment p u db = .ok (db', r) ∧
        (db'.approvals.filter (fun a => a.assessment_id = r.assessment_id)) = [row] ∧
        row.action = "Initial Save") ∧
    (∀ db aid req, ∀ a : Assessment,
      db.assessments.find? (fun x => x.id = aid) = some a →
      (a.status = "Pending Review" ∨ a.status = "In Progress") →
      ∃ db' row, approve_assessment db aid req = .ok db' ∧
        db'.approvals = db.approvals ++ [row] ∧
        row.assessment_id = aid ∧ row.action = "Approved") := by
  constructor
  · intro p u db hv
    cases hex : db.assessments.find? (fun a => a.study_id = p.study_id.getD 0) with
    | some ex =>
      obtain ⟨db', r, hsave, hraid, _, ⟨row, hfilter, haction⟩, _⟩ :=
        save_update_effects p u db ex hv hex
      refine ⟨db', r, row, hsave, ?_, haction⟩
      rw [hraid]
      exact hfilter
    | none =>
      obtain ⟨db', r, hsave, hraid, _, ⟨row, hfilter, haction⟩⟩ :=
        save_new_effects p u db hv hex
      refine ⟨db', r, row, hsave, ?_, haction⟩
      rw [hraid]
      exact hfilter
  · intro db aid req a hfind hstat
    have hnot : ¬(a.status ≠ "Pending Review" ∧ a.status ≠ "In Progress") := by
      rcases hstat with h | h
      · intro hc
        exact hc.1 h
      · intro hc
        exact hc.2 h
    unfold approve_assessment
    rw [hfind]
    dsimp only
    rw [if_neg hnot]
    obtain ⟨row, happ, hra, hac⟩ := decisionEffects_approvals db aid req a.study_id
      "Approved" "Approved" "Assessment has been reviewed and approved by Study Director"
    exact ⟨_, row, rfl, happ, hra, hac⟩

/-- C3 witness: both parts at concrete stores — a save on `c2UpdDB`
and an approve of the pending assessment of `c2UpdDB`. -/
theorem approval_record_amended_witness :
    (∃ db' r row, save_assessment (payloadFix (some "Monthly")) userFix c2UpdDB = .ok (db', r) ∧
      (db'.approvals.filter (fun a => a.assessment_id = r.assessment_id)) = [row] ∧
      row.action = "Initial Save") ∧
    (∃ db' row, approve_assessment c2UpdDB 1 c3Req = .ok db' ∧
      db'.approvals = c2UpdDB.approvals ++ [row] ∧
      row.assessment_id = 1 ∧ row.action = "Approved") := by
  constructor
  · exact approval_record_amended.1 (payloadFix (some "Monthly")) userFix c2UpdDB (by decide)
  · exact approval_record_amended.2 c2UpdDB 1 c3Req
      (assessFix "Pending Review" (some "Monthly")) (by decide) (Or.inl (by decide))

/-! ## Claim C4 -/

/-- C4 counterexample: the claim says a save whose
`monitoring_schedule` differs from the previously stored one appends
exactly one `"Schedule Update: ..."` entry.  On `c4NullDB` the stored
schedule is NULL and the payload's is `'Quarterly'` — they differ —
yet the save succeeds (status forced to `'Pending Review'`) and
appends NO timeline entry, because the handler's `is not None` guard
suppresses the comparison. -/
theorem timeline_null_prev_counterexample :
    c4NullDB.assessments.map (fun a => a.monitoring_schedule) = [none] ∧
    ((save_assessment (payloadFix (some "Quarterly")) userFix c4NullDB).toOption.map
      (fun x => (x.1.timeline.length, x.1.assessments.map (fun a => a.status)))) =
      some (0, ["Pending Review"]) := by
  exact ⟨rfl, rfl⟩

/-- C4 (amended): on a save over an existing assessment, no
TimelineEntry is appended when the payload's schedule equals the
stored one, exactly one `"Schedule Update: {new}"` entry is appended
when the stored schedule is non-NULL and differs, and nothing is
appended when the stored schedule is NULL, regardless of the new
value. -/
theorem save_timeline_schedule_change (p : Payload) (u : User) (db : DB) (ex : Assessment)
    (hv : saveValidationError p db = none)
    (hex : db.assessments.find? (fun a => a.study_id = p.study_id.getD 0) = some ex) :
    ∃ db' r, save_assessment p u db = .ok (db', r) ∧
      (prevScheduleOf db ex.id = none → db'.timeline = db.timeline) ∧
      (∀ s, prevScheduleOf db ex.id = some s → p.monitoring_schedule = some s →
        db'.timeline = db.timeline) ∧
      (∀ s, prevScheduleOf db ex.id = some s → p.monitoring_schedule ≠ some s →
        ∃ entry : TimelineRow, db'.timeline = db.timeline ++ [entry] ∧
          entry.schedule_type = "Schedule Update: " ++ pyStrOpt p.monitoring_schedule) := by
  obtain ⟨db', r, hsave, _, _, _, h5, h6, h7⟩ := save_update_effects p u db ex hv hex
  exact ⟨db', r, hsave, h5, h6, h7⟩

/-- C4 witness: a re-save of `c2UpdDB` (stored schedule `'Monthly'`)
with payload schedule `'Quarterly'` appends exactly one
`"Schedule Update: Quarterly"` entry. -/
theorem save_timeline_schedule_change_witness :
    ∃ db' r, save_assessment (payloadFix (some "Quarterly")) userFix c2UpdDB = .ok (db', r) ∧
      ∃ entry : TimelineRow, db'.timeline = c2UpdDB.timeline ++ [entry] ∧
        entry.schedule_type = "Schedule Update: Quarterly" := by
  obtain ⟨db', r, hsave, _, _, h7⟩ := save_timeline_schedule_change
    (payloadFix (some "Quarterly")) userFix c2UpdDB
    (assessFix "Pending Review" (some "Monthly")) (by decide) (by decide)
  obtain ⟨entry, hentry, hst⟩ := h7 "Monthly" (by decide) (by decide)
  exact ⟨db', r, hsave, entry, hentry, hst⟩

/-! ## Claim C5 -/

/-- C5: approve and reject succeed exactly when the assessment exists
and its current status is `'Pending Review'` or `'In Progress'` (and,
for reject, the reason is not empty/whitespace-only); any other
current status yields the 4xx conflict error whose detail names the
current status, a missing assessment yields the 404 `'not found'`
error, and a blank reason on an otherwise-valid reject yields the
validation error. -/
theorem approve_reject_status_gate (db : DB) (aid : Nat) (req : ApprovalRequest) :
    (db.assessments.find? (fun a => a.id = aid) = none →
      approve_assessment db aid req = .error ⟨404, "Assessment not found"⟩ ∧
      reject_assessment db aid req = .error ⟨404, "Assessment not found"⟩) ∧
    (∀ a : Assessment, db.assessments.find? (fun a => a.id = aid) = some a →
      ((a.status ≠ "Pending Review" ∧ a.status ≠ "In Progress") →
        approve_assessment db aid req =
          .error ⟨400, "Assessment cannot be approved. Current status: " ++ a.status⟩ ∧
        reject_assessment db aid req =
          .error ⟨400, "Assessment cannot be rejected. Current status: " ++ a.status⟩) ∧
      ((a.status = "Pending Review" ∨ a.status = "In Progress") →
        (∃ d, approve_assessment db aid req = .ok d) ∧
        (pyStrip req.reason = "" →
          reject_assessment db aid req = .error ⟨400, "Reason is required for rejection"⟩) ∧
        (pyStrip req.reason ≠ "" → ∃ d, reject_assessment db aid req = .ok d))) := by
  refine ⟨?_, ?_⟩
  · intro hfind
    unfold approve_assessment reject_assessment
    rw [hfind]
    exact ⟨rfl, rfl⟩
  · intro a hfind
    refine ⟨?_, ?_⟩
    · intro hbad
      unfold approve_assessment reject_assessment
      rw [hfind]
      dsimp only
      rw [if_pos hbad, if_pos hbad]
      exact ⟨rfl, rfl⟩
    · intro hgood
      have hnot : ¬(a.status ≠ "Pending Review" ∧ a.status ≠ "In Progress") := by
        rcases hgood with h | h
        · intro hc
          exact hc.1 h
        · intro hc
          exact hc.2 h
      refine ⟨?_, ?_, ?_⟩
      · unfold approve_assessment
        rw [hfind]
        dsimp only
        rw [if_neg hnot]
        exact ⟨_, rfl⟩
      · intro hblank
        unfold reject_assessment
        rw [hfind]
        dsimp only
        rw [if_neg hnot, if_pos hblank]
      · intro hblank
        unfold reject_assessment
        rw [hfind]
        dsimp only
        rw [if_neg hnot, if_neg hblank]
        exact ⟨_, rfl⟩

/-- C5 witness: the four outcomes at concrete stores (`c5DB` holds an
`'Approved'` assessment with id 1 and a `'Pending Review'` one with
id 2; `c5ReqBlank` carries a whitespace-only reason). -/
theorem approve_reject_status_gate_witness :
    approve_assessment c5DB 99 c3Req = .error ⟨404, "Assessment not found"⟩ ∧
    approve_assessment c5DB 1 c3Req =
      .error ⟨400, "Assessment cannot be approved. Current status: Approved"⟩ ∧
    (∃ d, approve_assessment c5DB 2 c3Req = .ok d) ∧
    reject_assessment c5DB 2 c5ReqBlank =
      .error ⟨400, "Reason is required for rejection"⟩ := by
  refine ⟨?_, ?_, ?_, ?_⟩
  · exact ((approve_reject_status_gate c5DB 99 c3Req).1 (by decide)).1
  · exact (((approve_reject_status_gate c5DB 1 c3Req).2
      (assessFix "Approved" (some "Monthly")) (by decide)).1 (by decide)).1
  · exact ((((approve_reject_status_gate c5DB 2 c3Req).2
      ({ assessFix "Pending Review" (some "Monthly") with id := 2 }) (by decide)).2
      (Or.inl (by decide))).1)
  · exact ((((approve_reject_status_gate c5DB 2 c5ReqBlank).2
      ({ assessFix "Pending Review" (some "Monthly") with id := 2 }) (by decide)).2
      (Or.inl (by decide))).2.1 (by decide))

/-! ## Claim C6 -/

/-- C6: the submission notification targets SD with action
`'Initial Save'` when the submitter's role is PI, targets PI with
action `'SD Created'` when the role is SD, and defaults to targeting
SD for any other role; every successful creation appends exactly one
new row with `read_status = false` to whatever rows already exist (no
de-duplication — the append is unconditional, so repeated events
produce repeated rows). -/
theorem submission_notification_routing (db : DB) (aid sid : Nat) (n e stype : String)
    (ha : aid ≠ 0) (hs : sid ≠ 0) (hn : n ≠ "") (he : e ≠ "") :
    (pyUpper stype = "PI" →
      create_assessment_submission_notification db aid sid n e stype =
        .ok ({ db with
          notifications := db.notifications ++
            [⟨db.next_id, aid, "Initial Save", n, e,
              "Assessment saved by Principal Investigator",
              some "Assessment data saved successfully by PI", "SD", sid, db.now, false, db.now⟩],
          next_id := db.next_id + 1, now := db.now + 1 }, db.next_id)) ∧
    (pyUpper stype = "SD" →
      create_assessment_submission_notification db aid sid n e stype =
        .ok ({ db with
          notifications := db.notifications ++
            [⟨db.next_id, aid, "SD Created", n, e,
              "Assessment created by Study Director",
              some "Study Director has created an assessment that requires your review",
              "PI", sid, db.now, false, db.now⟩],
          next_id := db.next_id + 1, now := db.now + 1 }, db.next_id)) ∧
    (pyUpper stype ≠ "PI" → pyUpper stype ≠ "SD" →
      create_assessment_submission_notification db aid sid n e stype =
        .ok ({ db with
          notifications := db.notifications ++
            [⟨db.next_id, aid, "Initial Save", n, e, "Assessment saved",
              some "Assessment data saved successfully", "SD", sid, db.now, false, db.now⟩],
          next_id := db.next_id + 1, now := db.now + 1 }, db.next_id)) := by
  refine ⟨?_, ?_, ?_⟩
  · intro hpi
    unfold create_assessment_submission_notification
    rw [if_pos hpi]
    unfold create_notification
    rw [if_neg]
    simp [ha, hs, hn, he]
  · intro hsd
    have hnpi : ¬ pyUpper stype = "PI" := by
      rw [hsd]
      decide
    unfold create_assessment_submission_notification
    rw [if_neg hnpi, if_pos hsd]
    unfold create_notification
    rw [if_neg]
    simp [ha, hs, hn, he]
  · intro hnpi hnsd
    unfold create_assessment_submission_notification
    rw [if_neg hnpi, if_neg hnsd]
    unfold create_notification
    rw [if_neg]
    simp [ha, hs, hn, he]

/-- C6 witness: a PI submission on the empty store. -/
theorem submission_notification_routing_witness :
    create_assessment_submission_notification emptyDB 1 7 "Alice Park" "alice@x.com" "PI" =
      .ok ({ emptyDB with
        notifications := [⟨1, 1, "Initial Save", "Alice Park", "alice@x.com",
          "Assessment saved by Principal Investigator",
          some "Assessment data saved successfully by PI", "SD", 7, 100, false, 100⟩],
        next_id := 2, now := 101 }, 1) :=
  (submission_notification_routing emptyDB 1 7 "Alice Park" "alice@x.com" "PI"
    (by decide) (by decide) (by decide) (by decide)).1 (by decide)

/-! ## Claim C7 -/

/-- C7: the audit-trail query is claimed to return exactly the rows of
the assessment matching the optional filters; in particular a
`field_name` filter of `'Risk Score'` or `'Risk Level'` should return
those entries.  The code hard-codes
`field_name in ('Severity', 'Likelihood')` into the base WHERE clause
(audit_service.py line 42), so on a store holding a `'Risk Score'`
change for assessment 1 the dedicated queries return nothing, and even
the unfiltered query omits the row — contradicting the claim (and the
methods' own docstrings, which promise the risk-score / risk-level
changes). -/
theorem audit_risk_score_query_empty :
    c7DB.audit_trail.map (fun e => e.field_name) = ["Risk Score", "Severity"] ∧
    get_risk_score_changes c7DB 1 100 = [] ∧
    get_risk_level_changes c7DB 1 100 = [] ∧
    (get_audit_trail_for_assessment c7DB 1 none none 100).map (fun e => e.field_name) =
      ["Severity"] :=
  ⟨rfl, rfl, rfl, rfl⟩

/-! ## Claim C8 -/

theorem charListLt_trans : ∀ a b c : List Char, charListLt a b = true →
    charListLt b c = true → charListLt a c = true := by
  intro a
  induction a with
  | nil =>
    intro b c h1 h2
    cases c with
    | cons z zs => rfl
    | nil =>
      cases b with
      | nil => exact h2
      | cons y ys => exact absurd h2 (by simp [charListLt])
  | cons x xs ih =>
    intro b c h1 h2
    cases b with
    | nil => exact absurd h1 (by simp [charListLt])
    | cons y ys =>
      cases c with
      | nil => exact absurd h2 (by simp [charListLt])
      | cons z zs =>
        simp only [charListLt] at h1 h2 ⊢
        by_cases hxy : x.toNat < y.toNat
        · by_cases hyz : y.toNat < z.toNat
          · rw [if_pos (Nat.lt_trans hxy hyz)]
          · rw [if_neg hyz] at h2
            by_cases hzy : z.toNat < y.toNat
            · rw [if_pos hzy] at h2
              exact absurd h2 (by simp)
            · rw [if_pos (show x.toNat < z.toNat by omega)]
        · rw [if_neg hxy] at h1
          by_cases hyx : y.toNat < x.toNat
          · rw [if_pos hyx] at h1
            exact absurd h1 (by simp)
          · rw [if_neg hyx] at h1
            by_cases hyz : y.toNat < z.toNat
            · rw [if_pos (show x.toNat < z.toNat by omega)]
            · rw [if_neg hyz] at h2
              by_cases hzy : z.toNat < y.toNat
              · rw [if_pos hzy] at h2
                exact absurd h2 (by simp)
              · rw [if_neg hzy] at h2
                rw [if_neg (show ¬ x.toNat < z.toNat by omega),
                  if_neg (show ¬ z.toNat < x.toNat by omega)]
                exact ih ys zs h1 h2

theorem charListLt_negtrans : ∀ a b c : List Char, charListLt a b = false →
    charListLt b c = false → charListLt a c = false := by
  intro a
  induction a with
  | nil =>
    intro b c h1 h2
    cases b with
    | cons y ys => exact absurd h1 (by simp [charListLt])
    | nil =>
      cases c with
      | cons z zs => exact absurd h2 (by simp [charListLt])
      | nil => rfl
  | cons x xs ih =>
    intro b c h1 h2
    cases c with
    | nil => rfl
    | cons z zs =>
      cases b with
      | nil => exact absurd h2 (by simp [charListLt])
      | cons y ys =>
        simp only [charListLt] at h1 h2 ⊢
        by_cases hxy : x.toNat < y.toNat
        · rw [if_pos hxy] at h1
          exact absurd h1 (by simp)
        · rw [if_neg hxy] at h1
          by_cases hyz : y.toNat < z.toNat
          · rw [if_pos hyz] at h2
            exact absurd h2 (by simp)
          · rw [if_neg hyz] at h2
            by_cases hyx : y.toNat < x.toNat
            · rw [if_neg (show ¬ x.toNat < z.toNat by omega),
                if_pos (show z.toNat < x.toNat by omega)]
            · rw [if_neg hyx] at h1
              by_cases hzy : z.toNat < y.toNat
              · rw [if_neg (show ¬ x.toNat < z.toNat by omega),
                  if_pos (show z.toNat < x.toNat by omega)]
              · rw [if_neg hzy] at h2
                rw [if_neg (show ¬ x.toNat < z.toNat by omega),
                  if_neg (show ¬ z.toNat < x.toNat by omega)]
                exact ih ys zs h1 h2

theorem strLt_trans {a b c : String} (h1 : strLt a b = true) (h2 : strLt b c = true) :
    strLt a c = true :=
  charListLt_trans _ _ _ h1 h2

theorem strLt_negtrans {a b c : String} (h1 : strLt a b = false) (h2 : strLt b c = false) :
    strLt a c = false :=
  charListLt_negtrans _ _ _ h1 h2

theorem strMax_assoc (a b c : String) :
    strMax a (strMax b c) = strMax (strMax a b) c := by
  unfold strMax
  cases hp : strLt a b with
  | false =>
    cases hq : strLt b c with
    | false => simp [hp, hq, strLt_negtrans hp hq]
    | true => simp [hp, hq]
  | true =>
    cases hq : strLt b c with
    | false => simp [hp, hq]
    | true => simp [hp, hq, strLt_trans hp hq]

theorem strMax_foldl (a b : String) (l : List String) :
    strMax a (l.foldl strMax b) = l.foldl strMax (strMax a b) := by
  induction l generalizing b with
  | nil => rfl
  | cons c cs ih =>
    rw [List.foldl_cons, List.foldl_cons, ih (strMax b c), ← strMax_assoc]

theorem insertDescStr_head (x : String) (l : List String) :
    (insertDescStr x l).head? = some (match l.head? with
      | none => x
      | some y => strMax x y) := by
  cases l with
  | nil => rfl
  | cons y ys =>
    unfold insertDescStr strMax
    cases h : strLt x y <;> simp [h]

theorem sortDescStr_head (l : List String) (a : String) :
    (insertDescStr a (sortDescStr l)).head? = some (l.foldl strMax a) := by
  induction l generalizing a with
  | nil => rfl
  | cons b bs ih =>
    rw [show sortDescStr (b :: bs) = insertDescStr b (sortDescStr bs) from rfl]
    rw [insertDescStr_head, ih b]
    exact congrArg some (strMax_foldl a b bs)

theorem foldl_optionMax_some (l : List String) (m : String) :
    l.foldl (fun acc c =>
      match acc with
      | none => some c
      | some x => if strLt x c then some c else some x) (some m) =
      some (l.foldl strMax m) := by
  induction l generalizing m with
  | nil => rfl
  | cons c cs ih =>
    rw [List.foldl_cons, List.foldl_cons]
    rw [show (match some m with
      | none => some c
      | some x => if strLt x c then some c else some x) = some (strMax m c) from by
        show (if strLt m c then some c else some m) = some (strMax m c)
        unfold strMax
        cases h : strLt m c <;> simp [h]]
    exact ih (strMax m c)

/-- The source's `ORDER BY assessment_id DESC LIMIT 1` fold computes
the head of the descending-sorted matching codes — the claim's
"descending-ordered top existing code". -/
theorem likeTop_eq_claimTopCode (codes : List String) (pfx : String) :
    likeTop codes pfx = claimTopCode codes pfx := by
  unfold likeTop claimTopCode
  generalize codes.filter (fun c => strIsPrefixOf pfx c) = l
  cases l with
  | nil => rfl
  | cons a as =>
    rw [show sortDescStr (a :: as) = insertDescStr a (sortDescStr as) from rfl]
    rw [sortDescStr_head, List.foldl_cons]
    exact foldl_optionMax_some as a

/-- C8: for every study whose protocol is non-empty and every formatted
assessment date, the generated code is the claim's
`{siteCode}-{sponsorCode}-{protocolCode}-{YYYYMMDD}-{seq:03d}` format
with the sponsor segment omitted entirely when `sponsor_code` is
empty, the protocol code the first 3 characters of the protocol, and
the sequence 1 plus the numeric suffix of the descending-ordered top
existing code sharing the same prefix, defaulting to 1 when no such
code exists or its suffix is unparsable. -/
theorem generate_assessment_id_spec (codes : List String) (study : Study)
    (date_formatted : String) (hp : study.protocol ≠ "") :
    generate_assessment_id codes study date_formatted =
      claimPrefix study date_formatted ++
        pad3 (claimSequence codes (claimPrefix study date_formatted)) := by
  unfold generate_assessment_id get_next_sequence claimPrefix claimSequence
  dsimp only
  rw [if_pos hp, likeTop_eq_claimTopCode]
  by_cases hsp : study.sponsor_code = ""
  · rw [hsp]
    simp
  · simp [hsp]

/-- C8 witness: the concrete codes of `c8Codes` share the prefix
`ARC-CFP-CIN-20250220-`; the descending top is `...-003`, so the next
code ends in `004`. -/
theorem generate_assessment_id_spec_witness :
    studyFix.protocol ≠ "" ∧
    generate_assessment_id c8Codes studyFix "20250220" = "ARC-CFP-CIN-20250220-004" := by
  refine ⟨by decide, ?_⟩
  rw [generate_assessment_id_spec c8Codes studyFix "20250220" (by decide)]
  rfl

/-! ## C9: mark-as-read idempotence and the missing-id path -/

theorem filter_eq_nil_of_forall {α : Type} (P : α → Bool) (l : List α)
    (h : ∀ a ∈ l, P a = false) : l.filter P = [] := by
  induction l with
  | nil => rfl
  | cons a t ih =>
    rw [List.filter_cons, h a (List.mem_cons_self a t)]
    simp only [Bool.false_eq_true, if_false]
    exact ih (fun b hb => h b (List.mem_cons_of_mem a hb))

theorem markStep_idem (now nid : Nat) (n : NotificationRow) :
    markStep now nid (markStep now nid n) = markStep now nid n := by
  unfold markStep
  by_cases h : n.id = nid <;> simp [h]

theorem mark_as_read_fst (d : DB) (nid : Nat) :
    (mark_as_read d nid).1 =
      { d with notifications := d.notifications.map (markStep d.now nid) } := by
  unfold mark_as_read
  dsimp only
  split <;> rfl

/-- C9 counterexample: with the only stored notification having id 1,
marking id 5 indeed mutates nothing, but the failure surfaces with
status 500 — the method's own `except Exception` clause wraps the
internal `HTTPException(404, "Notification not found")` into a 500
whose detail merely quotes it — not as the "not found" (404) error the
claim describes. -/
theorem mark_as_read_missing_counterexample :
    (mark_as_read c9DB 5).1 = c9DB ∧
    (mark_as_read c9DB 5).2 =
      .error ⟨500, "Failed to mark notification as read: 404: Notification not found"⟩ ∧
    (500 : Nat) ≠ 404 :=
  ⟨rfl, rfl, by decide⟩

/-- C9 (amended): `mark_as_read` is idempotent — a second application
leaves the store unchanged, and marking an id that exists (even if
every such row is already read) succeeds with all rows of that id
read afterwards; when no row with the id exists the store is
untouched, but the resulting error is a 500 wrapping the internal 404
message rather than a 404 "not found" error. -/
theorem mark_as_read_amended (db : DB) (nid : Nat) :
    ((∃ n ∈ db.notifications, n.id = nid) →
      (mark_as_read db nid).2 = .ok () ∧
      ∀ n ∈ (mark_as_read db nid).1.notifications, n.id = nid → n.read_status = true) ∧
    (mark_as_read (mark_as_read db nid).1 nid).1 = (mark_as_read db nid).1 ∧
    ((∀ n ∈ db.notifications, n.id ≠ nid) →
      (mark_as_read db nid).1 = db ∧
      (mark_as_read db nid).2 =
        .error ⟨500, "Failed to mark notification as read: 404: Notification not found"⟩) := by
  refine ⟨?_, ?_, ?_⟩
  · intro hex
    constructor
    · have hcount : ¬ (db.notifications.filter (fun n => n.id = nid)).length = 0 := by
        intro h0
        obtain ⟨n, hn, hnid⟩ := hex
        have hmem : n ∈ db.notifications.filter (fun n => n.id = nid) :=
          List.mem_filter.mpr ⟨hn, by simp [hnid]⟩
        rw [List.length_eq_zero] at h0
        rw [h0] at hmem
        exact List.not_mem_nil n hmem
      unfold mark_as_read
      dsimp only
      rw [if_neg hcount]
    · intro n hn hnid
      rw [mark_as_read_fst db nid] at hn
      dsimp only at hn
      obtain ⟨m, hm, rfl⟩ := List.mem_map.mp hn
      by_cases h : m.id = nid
      · simp [markStep, h]
      · rw [show markStep db.now nid m = m from by simp [markStep, h]] at hnid
        exact absurd hnid h
  · have hmm : (db.notifications.map (markStep db.now nid)).map (markStep db.now nid) =
        db.notifications.map (markStep db.now nid) := by
      rw [List.map_map]
      apply List.map_congr_left
      intro n _
      exact markStep_idem db.now nid n
    rw [mark_as_read_fst db nid, mark_as_read_fst]
    dsimp only
    rw [hmm]
  · intro hnone
    have hmapid : db.notifications.map (markStep db.now nid) = db.notifications := by
      rw [show db.notifications.map (markStep db.now nid) = db.notifications.map id from
        List.map_congr_left (fun n hn => by simp [markStep, hnone n hn])]
      exact List.map_id db.notifications
    have hflt : db.notifications.filter (fun n => n.id = nid) = [] :=
      filter_eq_nil_of_forall _ _ (fun n hn => by simp [hnone n hn])
    constructor
    · rw [mark_as_read_fst db nid, hmapid]
    · unfold mark_as_read
      dsimp only
      rw [hflt]
      rfl

/-- C9 witness: marking the already-read notification 1 succeeds, and
marking it a second time leaves the store of the first marking
unchanged. -/
theorem mark_as_read_amended_witness :
    (mark_as_read c9DB 1).2 = .ok () ∧
    (mark_as_read (mark_as_read c9DB 1).1 1).1 = (mark_as_read c9DB 1).1 := by
  constructor
  · exact ((mark_as_read_amended c9DB 1).1
      ⟨⟨1, 1, "Initial Save", "Alice Park", "alice@x.com", "Assessment saved",
        some "c", "SD", 7, 5, true, 5⟩, by decide, rfl⟩).1
  · exact (mark_as_read_amended c9DB 1).2.1

/-! ## C10: the draft's risk-score guard and catalog independence -/

theorem foldl_filter_eq {α β : Type} (P : α → Bool) (f : β → α → β) (l : List α) (b : β) :
    (l.filter P).foldl f b = l.foldl (fun acc a => if P a then f acc a else acc) b := by
  induction l generalizing b with
  | nil => rfl
  | cons a t ih => by_cases h : P a <;> simp [List.filter_cons, h, ih]

theorem draftRiskScores_risk_scores (p : Payload) (aid : Nat) (d : DB) :
    (draftRiskScores p aid d).risk_scores =
      (p.risk_scores.filter draftEntryComplete).foldl
        (fun rows e => upsertRisk aid e rows) d.risk_scores := by
  rw [foldl_filter_eq]
  unfold draftRiskScores
  by_cases h : p.risk_scores = []
  · rw [if_neg (fun hne => hne h), h]
    rfl
  · rw [if_pos h]

theorem draftRiskScores_assessments (p : Payload) (aid : Nat) (d : DB) :
    (draftRiskScores p aid d).assessments = d.assessments := by
  unfold draftRiskScores
  split <;> rfl

theorem draftPlans_risk_scores (p : Payload) (aid : Nat) (d : DB) :
    (draftPlans p aid d).risk_scores = d.risk_scores := by
  unfold draftPlans
  split <;> rfl

theorem draftPlans_assessments (p : Payload) (aid : Nat) (d : DB) :
    (draftPlans p aid d).assessments = d.assessments := by
  unfold draftPlans
  split <;> rfl

theorem draftDashboard_risk_scores (p : Payload) (aid : Nat) (d : DB) :
    (draftDashboard p aid d).risk_scores = d.risk_scores := by
  unfold draftDashboard
  split <;> rfl

theorem draftDashboard_assessments (p : Payload) (aid : Nat) (d : DB) :
    (draftDashboard p aid d).assessments = d.assessments := by
  unfold draftDashboard
  split <;> rfl

theorem draftSummaries_risk_scores (p : Payload) (u : User) (aid : Nat) (d : DB) :
    (draftSummaries p u aid d).risk_scores = d.risk_scores := by
  unfold draftSummaries
  split <;> rfl

theorem draftSummaries_assessments (p : Payload) (u : User) (aid : Nat) (d : DB) :
    (draftSummaries p u aid d).assessments = d.assessments := by
  unfold draftSummaries
  split <;> rfl

theorem draftSections_risk_scores (p : Payload) (aid : Nat) (d : DB) :
    (draftSections p aid d).risk_scores = d.risk_scores := by
  unfold draftSections
  split <;> rfl

theorem draftSections_assessments (p : Payload) (aid : Nat) (d : DB) :
    (draftSections p aid d).assessments = d.assessments := by
  unfold draftSections
  split <;> rfl

theorem draftHeader_fst (p : Payload) (u : User) (db : DB) :
    (draftHeader p u db).1 = draftAid p db := by
  unfold draftHeader draftAid
  cases db.assessments.find? (fun a => a.study_id = p.study_id.getD 0) <;> rfl

theorem draftHeader_risk_scores (p : Payload) (u : User) (db : DB) :
    (draftHeader p u db).2.2.risk_scores = db.risk_scores := by
  unfold draftHeader
  cases db.assessments.find? (fun a => a.study_id = p.study_id.getD 0) <;> rfl

theorem draftFinal_risk_scores (p : Payload) (u : User) (db : DB) :
    (draftFinal p u db).risk_scores =
      (p.risk_scores.filter draftEntryComplete).foldl
        (fun rows e => upsertRisk (draftAid p db) e rows) db.risk_scores := by
  unfold draftFinal
  rw [draftSections_risk_scores, draftSummaries_risk_scores, draftDashboard_risk_scores,
      draftPlans_risk_scores, draftRiskScores_risk_scores, draftHeader_fst,
      draftHeader_risk_scores]

theorem draftFinal_assessments (p : Payload) (u : User) (db : DB) :
    (draftFinal p u db).assessments = (draftHeader p u db).2.2.assessments := by
  unfold draftFinal
  rw [draftSections_assessments, draftSummaries_assessments, draftDashboard_assessments,
      draftPlans_assessments, draftRiskScores_assessments]

theorem draftAid_cat (p : Payload) (db : DB) (cat : List RiskFactorRow) :
    draftAid p { db with risk_factors := cat } = draftAid p db := by
  unfold draftAid
  dsimp only

theorem draftHeader_cat (p : Payload) (u : User) (db : DB) (cat : List RiskFactorRow) :
    (draftHeader p u { db with risk_factors := cat }).1 = (draftHeader p u db).1 ∧
    (draftHeader p u { db with risk_factors := cat }).2.1 = (draftHeader p u db).2.1 ∧
    (draftHeader p u { db with risk_factors := cat }).2.2.assessments =
      (draftHeader p u db).2.2.assessments := by
  unfold draftHeader
  dsimp only
  cases db.assessments.find? (fun a => a.study_id = p.study_id.getD 0) <;>
    exact ⟨rfl, rfl, rfl⟩

/-- C10: the draft save never validates the payload's risk-factor ids
against the catalog — replacing the catalog with any other list
changes neither the returned result nor the written assessment and
risk-score rows — and a RiskScore row is written or updated exactly
for the payload entries whose `risk_factor_id`, `severity` and
`likelihood` are all truthy (present and non-zero), the remaining
entries being silently skipped while the returned `risk_scores_count`
still reports the raw payload length. -/
theorem save_draft_risk_score_guard (p : Payload) (u : User) (db : DB)
    (hv : draftValidationError p db = none) :
    ∃ db' r, save_assessment_draft p u db = .ok (db', r) ∧
      r.risk_scores_count = p.risk_scores.length ∧
      db'.risk_scores = (p.risk_scores.filter draftEntryComplete).foldl
        (fun rows e => upsertRisk (draftAid p db) e rows) db.risk_scores ∧
      ∀ cat : List RiskFactorRow,
        ∃ db2 r2,
          save_assessment_draft p u { db with risk_factors := cat } = .ok (db2, r2) ∧
          r2 = r ∧ db2.risk_scores = db'.risk_scores ∧ db2.assessments = db'.assessments := by
  have hsave : ∀ d : DB, draftValidationError p d = none →
      save_assessment_draft p u d = .ok (draftFinal p u d, draftResult p u d) := by
    intro d hd
    unfold save_assessment_draft
    rw [hd]
  refine ⟨draftFinal p u db, draftResult p u db, hsave db hv, rfl,
    draftFinal_risk_scores p u db, ?_⟩
  intro cat
  have hv2 : draftValidationError p { db with risk_factors := cat } = none := hv
  refine ⟨draftFinal p u { db with risk_factors := cat },
    draftResult p u { db with risk_factors := cat }, hsave _ hv2, ?_, ?_, ?_⟩
  · unfold draftResult
    rw [(draftHeader_cat p u db cat).1, (draftHeader_cat p u db cat).2.1]
  · rw [draftFinal_risk_scores, draftFinal_risk_scores, draftAid_cat]
  · rw [draftFinal_assessments, draftFinal_assessments, (draftHeader_cat p u db cat).2.2]

/-- C10 witness: with an empty risk-factor catalog, the uncatalogued
factor id 99 is still written, the severity-0 and missing-id entries
are skipped, and the returned count still reports all three payload
entries. -/
theorem save_draft_risk_score_guard_witness :
    ∃ db' r, save_assessment_draft c10Payload userFix c10DB = .ok (db', r) ∧
      r.risk_scores_count = 3 ∧
      db'.risk_scores = [⟨1, some 99, some 4, some 3, some 12, some "High", none, none⟩] := by
  obtain ⟨db', r, h1, h2, h3, _⟩ :=
    save_draft_risk_score_guard c10Payload userFix c10DB (by decide)
  refine ⟨db', r, h1, ?_, ?_⟩
  · rw [h2]
    rfl
  · rw [h3]
    rfl

end RiskBackend
